import Mathlib

/-!
ABP resources of the Incapsula Terraform provider

A shallow embedding of `src/incapsula/{client,resource}_abp_*.go` and the
properties of its identity resolution, criteria codec and state comparison.

Conventions of the embedding

* A Go slice is `Slice α = Option (List α)`; `none` is the nil slice, which
  `reflect.DeepEqual` tells apart from an empty non-nil slice.
* A Go `*string` is `Option String`; `none` is the nil pointer.
* A `map[string]interface{}` of a selector block is `Option SelectorMap`:
  `none` is the nil map, `some m` holds one optional string per schema key
  (`none` in a field: the key is absent). In a `[]interface{}` that `d.Get`
  returns, `none` is a nil element: the type assertion
  `.(map[string]interface{})` on it panics.
* A Go `error` is a `String` (its message); a run-time panic of a failed type
  assertion is `Except.error`.
* Logging (`log.Printf`) has no effect on results and is left out.
-/

namespace Incapsula

/-! ## Go slices -/

/-- Go slice: `none` is the nil slice, `some l` a non-nil slice with elements `l`. -/
abbrev Slice (α : Type) := Option (List α)

/-- Elements of a slice, as `range` visits them. -/
def Slice.toList {α : Type} : Slice α → List α
  | none => []
  | some l => l

/-- Go `len(s)`. -/
def Slice.len {α : Type} (s : Slice α) : Nat := s.toList.length

/-- Go `append(s, x)`: the result is never nil. -/
def Slice.push {α : Type} (s : Slice α) (x : α) : Slice α := some (s.toList ++ [x])

/-! ## Wire types (`client_abp_site.go`) -/

def ABPSelectorCriteriaPostback : String := "postback"
def ABPSelectorCriteriaPathPrefix : String := "path_prefix"
def ABPSelectorCriteriaPathRegex : String := "path_regex"

/-- Anonymous struct `Criteria` of `ABPCreateSiteSelector`. -/
structure Criteria where
  Postback : Option String := none
  PathPrefix : Option String := none
  PathRegex : Option String := none
deriving DecidableEq, Repr

/-- Anonymous struct `AnalysisSettings` of `ABPCreateSiteSelector`. -/
structure AnalysisSettings where
  RateLimiting : String := ""
deriving DecidableEq, Repr

structure ABPCreateSiteSelector where
  PolicyID : Option String := none
  Criteria : Criteria := {}
  AnalysisSettings : AnalysisSettings := {}
deriving DecidableEq, Repr

structure ABPSiteSelector extends ABPCreateSiteSelector where
  DerivedID : Option String := none
deriving DecidableEq, Repr

structure ABPUpdateSite where
  Name : String := ""
  Selectors : Slice ABPSiteSelector := none
deriving DecidableEq, Repr

structure ABPCreateSite extends ABPUpdateSite where
  MxHostnameID : Option String := none
deriving DecidableEq, Repr

structure ABPSiteResponse extends ABPCreateSite where
  ID : String := ""
  AccountID : String := ""
deriving DecidableEq, Repr

/-! ## Wire types (`client_abp_policy.go`, `client_abp_account.go`) -/

structure ABPPolicyDirective where
  Action : String := ""
  ConditionID : Option String := none
deriving DecidableEq, Repr

structure ABPCreateUpdatePolicy where
  Name : String := ""
  Description : Option String := none
  Directives : Slice ABPPolicyDirective := none
deriving DecidableEq, Repr

structure ABPPolicyResponse extends ABPCreateUpdatePolicy where
  ID : String := ""
  AccountID : String := ""
deriving DecidableEq, Repr

structure ABPRootResponse where
  AccountID : String := ""
deriving DecidableEq, Repr

structure ABPAccountResponse where
  Name : String := ""
  ID : String := ""
  MYAccountID : String := ""
deriving DecidableEq, Repr

/-! ## Wire types (`client_abp_domain.go`) -/

structure ABPUpdateDomain where
  SiteID : String := ""
  ChallengeIPLookupMode : String := ""
  AnalysisIPLookupMode : String := ""
  CookieScope : String := ""
  CaptchaSettings : String := ""
  LogRegion : String := ""
  NoJSInjectionPaths : Slice String := none
  ObfuscatePath : String := ""
  CookieMode : String := ""
  UnmaskedHeaders : Slice String := none
deriving DecidableEq, Repr

structure ABPCreateDomain extends ABPUpdateDomain where
  Criteria : String := ""
  EncryptionKeyID : String := ""
deriving DecidableEq, Repr

structure ABPDomainResponse extends ABPCreateDomain where
  ID : String := ""
  AccountID : String := ""
  MobileAPIObfuscatePath : String := ""
deriving DecidableEq, Repr

/-! ## Schema side values (`schema.ResourceData`) -/

/-- Non-nil `map[string]interface{}` of one `selectors` block; a field that is
`none` is a key that is absent from the map. -/
structure SelectorMap where
  policy_id : Option String := none
  criteria_type : Option String := none
  criteria_value : Option String := none
  analysis_rate_limiting : Option String := none
  derived_id : Option String := none
deriving DecidableEq, Repr

/-- Non-nil `map[string]interface{}` of one `directives` block. -/
structure DirectiveMap where
  condition_id : Option String := none
  action : Option String := none
deriving DecidableEq, Repr

/-- The part of `schema.ResourceData` the ABP resources read and write.
`schemaName` records which resource's schema the data was made from. -/
structure ResourceData where
  id : String := ""
  resourceType : String := ""
  schemaName : String := ""
  name : String := ""
  account_id : String := ""
  mx_hostname_id : Option String := none
  description : String := ""
  selectors : List (Option SelectorMap) := []
  directives : List (Option DirectiveMap) := []
  my_account_id : Int := 0
  site_id : String := ""
  challenge_ip_lookup_mode : String := ""
  analysis_ip_lookup_mode : String := ""
  criteria : String := ""
  cookiescope : String := ""
  captcha_settings : String := ""
  log_region : String := ""
  obfuscate_path : String := ""
  mobile_api_obfuscate_path : String := ""
  cookie_mode : String := ""
  no_js_injection_paths : List String := []
  unmasked_headers : List String := []
deriving DecidableEq, Repr

/-- SDK `d.GetOk(key)` on a string attribute: the value and whether it was set
to a non-zero value. -/
def ResourceData.GetOkMxHostnameID (d : ResourceData) : String × Bool :=
  match d.mx_hostname_id with
  | none => ("", false)
  | some s => (s, s != "")

/-- SDK `d.SetId`. -/
def ResourceData.SetId (d : ResourceData) (v : String) : ResourceData := { d with id := v }

/-- SDK `d.SetType`. -/
def ResourceData.SetType (d : ResourceData) (v : String) : ResourceData :=
  { d with resourceType := v }

/-! ## Criteria codec (`resource_abp_site.go`) -/

/-- Body of the loop of `getSelectorsList`: the map written to `ret[i]`, or the
nil map that `make` left there when the `default` branch runs `continue`. -/
def getSelectorsListEntry (selector : ABPSiteSelector) : Option SelectorMap :=
  let crit : Option (String × String) :=
    match selector.Criteria.PathPrefix with
    | some v => some ("path_prefix", v)
    | none =>
      match selector.Criteria.PathRegex with
      | some v => some ("path_prefix", v)
      | none =>
        match selector.Criteria.Postback with
        | some v => some ("path_prefix", v)
        | none => none
  match crit with
  | none => none
  | some (criteriaName, criteriaValue) =>
    some { criteria_type := some criteriaName
           criteria_value := some criteriaValue
           analysis_rate_limiting := some selector.AnalysisSettings.RateLimiting
           policy_id := selector.PolicyID
           derived_id := selector.DerivedID }

/-- Source `getSelectorsList`: nil for an empty input, otherwise a slice of the
input's length. -/
def getSelectorsList (selectors : Slice ABPSiteSelector) : Slice (Option SelectorMap) :=
  if selectors.len = 0 then none
  else some (selectors.toList.map getSelectorsListEntry)

/-- Body of the loop of `fillABPSiteData`: the wire selector built from one
element of `d.Get("selectors")`. The type assertion `.(map[string]interface{})`
on a nil element panics, and so does `.(string)` on a missing key. -/
def fillABPSiteSelector (s : Option SelectorMap) : Except String ABPSiteSelector :=
  match s with
  | none => .error "interface conversion: interface {} is nil, not map[string]interface {}"
  | some selector =>
    match selector.policy_id, selector.analysis_rate_limiting, selector.criteria_value,
        selector.criteria_type with
    | some p, some rateLimiting, some cv, some cn =>
      let crit : Criteria :=
        if cn = ABPSelectorCriteriaPostback then { Postback := some cv }
        else if cn = ABPSelectorCriteriaPathPrefix then { PathPrefix := some cv }
        else if cn = ABPSelectorCriteriaPathRegex then { PathRegex := some cv }
        else {}
      .ok { PolicyID := if p.length > 0 then some p else none
            Criteria := crit
            AnalysisSettings := { RateLimiting := rateLimiting }
            DerivedID := none }
    | _, _, _, _ => .error "interface conversion: interface {} is nil, not string"

/-- Selector loop of `fillABPSiteData`, accumulating with `append`. -/
def fillABPSiteSelectors : List (Option SelectorMap) → Slice ABPSiteSelector →
    Except String (Slice ABPSiteSelector)
  | [], acc => .ok acc
  | s :: rest, acc =>
    match fillABPSiteSelector s with
    | .error e => .error e
    | .ok siteSelector => fillABPSiteSelectors rest (acc.push siteSelector)

/-- The dynamic type of the `out interface{}` argument of `fillABPSiteData`. -/
inductive SiteOut where
  | create (st : ABPCreateSite)
  | update (st : ABPUpdateSite)
  | other
deriving DecidableEq, Repr

/-- Source `fillABPSiteData`: the value left in `out` and the returned error;
`Except.error` is a panic. -/
def fillABPSiteData (d : ResourceData) (out : SiteOut) :
    Except String (SiteOut × Option String) :=
  match fillABPSiteSelectors d.selectors none with
  | .error e => .error e
  | .ok sels =>
    let site : ABPUpdateSite := { Name := d.name, Selectors := sels }
    match out with
    | .create st =>
      let (mxName, mxNameSet) := d.GetOkMxHostnameID
      let st1 : ABPCreateSite := if mxNameSet then { st with MxHostnameID := some mxName } else st
      .ok (.create { st1 with toABPUpdateSite := site }, none)
    | .update _ => .ok (.update site, none)
    | .other =>
      .ok (.other, some "error got unsupported type to update with ABP site data: <out>")

/-! ## The HTTP client (`client_abp_*.go`)

The transport (`DoJsonRequestWithHeaders`) and the JSON library are outside the
sources; they are fields of `Client`. The remote may be stateful: the transport
sees the requests issued so far. Every client function takes that history and
returns it extended by the requests it issued. -/

/-- Operation names passed to the transport. -/
inductive Operation where
  | ReadABPAccount
  | ReadABPSite | CreateABPSite | UpdateABPSite | DeleteABPSite
  | ReadABPPolicy | CreateABPPolicy | UpdateABPPolicy | DeleteABPPolicy
  | ReadABPDomain | CreateABPDomain | UpdateABPDomain | DeleteABPDomain
deriving DecidableEq, Repr

/-- Arguments of one `DoJsonRequestWithHeaders` call. -/
structure Request where
  method : String
  url : String
  data : Option String
  operation : Operation
deriving DecidableEq, Repr

/-- The part of `*http.Response` the client reads. -/
structure Response where
  StatusCode : Int
  Body : String
deriving DecidableEq, Repr

def MethodGet : String := "GET"
def MethodPost : String := "POST"
def MethodPut : String := "PUT"
def MethodDelete : String := "DELETE"

def ABPRootAPIPath : String := "/botmanagement/v1/"
def ABPAccountAPIPath : String := "/botmanagement/v1/account"
def ABPSiteAPIPath : String := "/botmanagement/v1/site"
def ABPPolicyAPIPath : String := "/botmanagement/v1/policy"
def ABPDomainAPIPath : String := "/botmanagement/v1/domain"

/-- The client: its configuration, the transport and the JSON library. -/
structure Client where
  BaseURLAPI : String
  DoJsonRequestWithHeaders : List Request → Request → Except String Response
  unmarshalRoot : String → Except String ABPRootResponse
  unmarshalAccount : String → Except String ABPAccountResponse
  unmarshalSite : String → Except String ABPSiteResponse
  unmarshalSites : String → Except String (List ABPSiteResponse)
  unmarshalPolicy : String → Except String ABPPolicyResponse
  unmarshalPolicies : String → Except String (List ABPPolicyResponse)
  marshalCreateSite : ABPCreateSite → Except String String
  fmtCreateSite : ABPCreateSite → String
  unmarshalDomain : String → Except String ABPDomainResponse
  marshalPolicy : ABPCreateUpdatePolicy → Except String String
  fmtPolicy : ABPCreateUpdatePolicy → String
  marshalCreateDomain : ABPCreateDomain → Except String String
  fmtCreateDomain : ABPCreateDomain → String
  marshalUpdateDomain : ABPUpdateDomain → Except String String
  fmtUpdateDomain : ABPUpdateDomain → String

/-- One transport call: the response and the extended history. -/
def Client.send (c : Client) (req : Request) (log : List Request) :
    Except String Response × List Request :=
  (c.DoJsonRequestWithHeaders log req, log ++ [req])

/-- Source `GetABPAccountID`: the Go pair `(string, error)` and the history. -/
def Client.GetABPAccountID (c : Client) (log : List Request) :
    (String × Option String) × List Request :=
  let (r, log1) := c.send ⟨MethodGet, c.BaseURLAPI ++ ABPRootAPIPath, none, .ReadABPAccount⟩ log
  match r with
  | .error _ => (("", some "Error from ABP API when reading root API"), log1)
  | .ok resp =>
    if resp.StatusCode ≠ 200 then
      (("", some ("Error status code " ++ toString resp.StatusCode ++
        " from ABP API when reading root API: " ++ resp.Body)), log1)
    else
      match c.unmarshalRoot resp.Body with
      | .error err =>
        (("", some ("Error parsing JSON response for root API " ++ err ++ ". response: " ++
          resp.Body)), log1)
      | .ok abpRootResponse => ((abpRootResponse.AccountID, none), log1)

/-- Source `GetABPAccount`. -/
def Client.GetABPAccount (c : Client) (accountID : String) (log : List Request) :
    Except String ABPAccountResponse × List Request :=
  if accountID.length = 0 then (.error "Cant' fetch empty account ID", log)
  else
    let (r, log1) := c.send
      ⟨MethodGet, c.BaseURLAPI ++ ABPAccountAPIPath ++ "/" ++ accountID, none, .ReadABPAccount⟩ log
    match r with
    | .error _ => (.error ("Error from ABP API when reading account ID " ++ accountID), log1)
    | .ok resp =>
      if resp.StatusCode ≠ 200 then
        (.error ("Error status code " ++ toString resp.StatusCode ++
          " from ABP API when reading account ID " ++ accountID ++ ": " ++ resp.Body), log1)
      else
        match c.unmarshalAccount resp.Body with
        | .error err =>
          (.error ("Error parsing JSON response for account ID " ++ accountID ++ ": " ++ err ++
            ". response: " ++ resp.Body), log1)
        | .ok abpAccountResponse => (.ok abpAccountResponse, log1)

/-- Go pair `(*T, error)` of a call that returns exactly one of the two. -/
def toGoPair {α : Type} : Except String α → Option α × Option String
  | .ok v => (some v, none)
  | .error e => (none, some e)

/-- Source `GetABPAccountWithoutID`: the Go pair `(*ABPAccountResponse, error)`. -/
def Client.GetABPAccountWithoutID (c : Client) (log : List Request) :
    (Option ABPAccountResponse × Option String) × List Request :=
  let ((ID, err), log1) := c.GetABPAccountID log
  if err ≠ none then
    let (r, log2) := c.GetABPAccount ID log1
    (toGoPair r, log2)
  else ((none, err), log1)

/-- Source `GetABPSite`. -/
def Client.GetABPSite (c : Client) (siteID : String) (log : List Request) :
    Except String ABPSiteResponse × List Request :=
  if siteID.length = 0 then (.error "Cant' fetch empty site ID", log)
  else
    let (r, log1) := c.send
      ⟨MethodGet, c.BaseURLAPI ++ ABPSiteAPIPath ++ "/" ++ siteID, none, .ReadABPSite⟩ log
    match r with
    | .error _ => (.error ("Error from ABP API when reading site ID " ++ siteID), log1)
    | .ok resp =>
      if resp.StatusCode ≠ 200 then
        (.error ("Error status code " ++ toString resp.StatusCode ++
          " from ABP API when reading site ID " ++ siteID ++ ": " ++ resp.Body), log1)
      else
        match c.unmarshalSite resp.Body with
        | .error err =>
          (.error ("Error parsing JSON response for site ID " ++ siteID ++ ": " ++ err ++
            ". response: " ++ resp.Body), log1)
        | .ok abpSiteResponse => (.ok abpSiteResponse, log1)

/-- Source `GetABPSitesForAccount`. -/
def Client.GetABPSitesForAccount (c : Client) (accountID : String) (log : List Request) :
    Except String (List ABPSiteResponse) × List Request :=
  if accountID.length = 0 then (.error "Cant' fetch empty account ID", log)
  else
    let (r, log1) := c.send
      ⟨MethodGet, c.BaseURLAPI ++ ABPAccountAPIPath ++ "/" ++ accountID ++ "/" ++ "site", none,
        .ReadABPSite⟩ log
    match r with
    | .error _ =>
      (.error ("Error from ABP API when reading sites for account ID " ++ accountID), log1)
    | .ok resp =>
      if resp.StatusCode ≠ 200 then
        (.error ("Error status code " ++ toString resp.StatusCode ++
          " from ABP API when reading sites for account ID " ++ accountID ++ ": " ++ resp.Body),
          log1)
      else
        match c.unmarshalSites resp.Body with
        | .error err =>
          (.error ("Error parsing JSON response for sites for account ID " ++ accountID ++ ": " ++
            err ++ ". response: " ++ resp.Body), log1)
        | .ok sites => (.ok sites, log1)

/-- Source `GetABPSitesForAccountWithoutID`. -/
def Client.GetABPSitesForAccountWithoutID (c : Client) (log : List Request) :
    Except String (List ABPSiteResponse) × List Request :=
  let ((ID, err), log1) := c.GetABPAccountID log
  match err with
  | some e => (.error e, log1)
  | none => c.GetABPSitesForAccount ID log1

/-- Source `createABPSite`. -/
def Client.createABPSite (c : Client) (val : ABPCreateSite) (log : List Request) :
    Except String ABPSiteResponse × List Request :=
  let ((accountID, err), log1) := c.GetABPAccountID log
  match err with
  | some e => (.error e, log1)
  | none =>
    match c.marshalCreateSite val with
    | .error e =>
      (.error ("failed to JSON marshal ABP site " ++ c.fmtCreateSite val ++ ": " ++ e), log1)
    | .ok valJSON =>
      let (r, log2) := c.send
        ⟨MethodPost, c.BaseURLAPI ++ ABPAccountAPIPath ++ "/" ++ accountID ++ "/" ++ "site",
          some valJSON, .CreateABPSite⟩ log1
      match r with
      | .error e =>
        (.error ("error from ABP API while creating site under account ID " ++ accountID ++
          ": " ++ e), log2)
      | .ok resp =>
        if resp.StatusCode ≠ 201 then
          (.error ("Error status code " ++ toString resp.StatusCode ++
            " from ABP API when creating site under account ID " ++ accountID ++ ": " ++
            resp.Body ++ "\n"), log2)
        else
          match c.unmarshalSite resp.Body with
          | .error e =>
            (.error ("Error parsing JSON response for creating ABP site under account ID " ++
              accountID ++ ": " ++ e ++ "\nresponse: " ++ resp.Body ++ "\n"), log2)
          | .ok updatedSite => (.ok updatedSite, log2)

/-- Source `GetABPPolicy`. -/
def Client.GetABPPolicy (c : Client) (policyID : String) (log : List Request) :
    Except String ABPPolicyResponse × List Request :=
  if policyID.length = 0 then (.error "can't fetch empty policy ID", log)
  else
    let (r, log1) := c.send
      ⟨MethodGet, c.BaseURLAPI ++ ABPPolicyAPIPath ++ "/" ++ policyID, none, .ReadABPPolicy⟩ log
    match r with
    | .error _ => (.error ("error from ABP API when reading policy ID " ++ policyID), log1)
    | .ok resp =>
      if resp.StatusCode ≠ 200 then
        (.error ("error status code " ++ toString resp.StatusCode ++
          " from ABP API when reading policy ID " ++ policyID ++ ": " ++ resp.Body), log1)
      else
        match c.unmarshalPolicy resp.Body with
        | .error err =>
          (.error ("error parsing JSON response for policy ID " ++ policyID ++ ": " ++ err ++
            ". response: " ++ resp.Body), log1)
        | .ok abpPolicyResponse => (.ok abpPolicyResponse, log1)

/-- Source `GetABPPoliciesForAccount`. -/
def Client.GetABPPoliciesForAccount (c : Client) (accountID : String) (log : List Request) :
    Except String (List ABPPolicyResponse) × List Request :=
  if accountID.length = 0 then (.error "can't fetch empty account ID", log)
  else
    let (r, log1) := c.send
      ⟨MethodGet, c.BaseURLAPI ++ ABPAccountAPIPath ++ "/" ++ accountID ++ "/" ++ "policy", none,
        .ReadABPPolicy⟩ log
    match r with
    | .error _ =>
      (.error ("error from ABP API when reading policies for account ID " ++ accountID), log1)
    | .ok resp =>
      if resp.StatusCode ≠ 200 then
        (.error ("error status code " ++ toString resp.StatusCode ++
          " from ABP API when reading policies for account ID " ++ accountID ++ ": " ++
          resp.Body), log1)
      else
        match c.unmarshalPolicies resp.Body with
        | .error err =>
          (.error ("error parsing JSON response for policies for account ID " ++ accountID ++
            ": " ++ err ++ ". response: " ++ resp.Body), log1)
        | .ok policies => (.ok policies, log1)

/-- Source `GetABPPoliciesForAccountWithoutID`. -/
def Client.GetABPPoliciesForAccountWithoutID (c : Client) (log : List Request) :
    Except String (List ABPPolicyResponse) × List Request :=
  let ((ID, err), log1) := c.GetABPAccountID log
  match err with
  | some e => (.error e, log1)
  | none => c.GetABPPoliciesForAccount ID log1

/-! ## Identity resolution (`resource_abp_{site,policy,domain}.go`) -/

/-- Go `strings.Split` for a one-character separator, on the characters of the
string: one more segment than there are separators. -/
def splitChars (sep : Char) : List Char → List (List Char)
  | [] => [[]]
  | c :: cs =>
    if c = sep then [] :: splitChars sep cs
    else
      match splitChars sep cs with
      | [] => [[c]]
      | h :: t => (c :: h) :: t

/-- Go `strings.Split(s, sep)` with a one-character `sep`. -/
def stringsSplit (s : String) (sep : Char) : List String :=
  (splitChars sep s.data).map String.mk

/-- The fresh data of `resourceABPSite().Data(nil)`. -/
def resourceABPSiteData : ResourceData := { schemaName := "resourceABPSite" }

/-- Source `importResourcesByID`. -/
def importResourcesByID (d : ResourceData) (c : Client) (log : List Request) :
    Except String (List ResourceData) × List Request :=
  match c.GetABPSite d.id log with
  | (.ok _, log1) => (.ok [d], log1)
  | (.error _, log1) => (.error ("ABP site ID " ++ d.id ++ " not found, can't import"), log1)

/-- Loop of `importResourcesByName` over the fetched sites. The state is the
resource `d` (which `results[0]` points to), the flag `found` and the resources
appended to `results` after `d`. -/
def importResourcesByNameLoop (siteName : String) :
    List ABPSiteResponse → ResourceData × Bool × List ResourceData →
    ResourceData × Bool × List ResourceData
  | [], st => st
  | site :: rest, (d, found, extra) =>
    if siteName = site.Name then
      if found = false then
        importResourcesByNameLoop siteName rest (d.SetId site.ID, true, extra)
      else
        let cd := (resourceABPSiteData.SetId site.ID).SetType "incapsula_abp_site"
        importResourcesByNameLoop siteName rest (d, found, extra ++ [cd])
    else importResourcesByNameLoop siteName rest (d, found, extra)

/-- Source `importResourcesByName`. -/
def importResourcesByName (d : ResourceData) (c : Client) (log : List Request) :
    Except String (List ResourceData) × List Request :=
  let siteName := d.id
  match c.GetABPSitesForAccountWithoutID log with
  | (.error err, log1) => (.error err, log1)
  | (.ok sites, log1) =>
    let (d1, _, extra) := importResourcesByNameLoop siteName sites (d, false, [])
    (.ok (d1 :: extra), log1)

/-- The `Importer.State` function of `resourceABPSite`. -/
def resourceABPSiteImporterState (d : ResourceData) (c : Client) (log : List Request) :
    Except String (List ResourceData) × List Request :=
  let keyParts := stringsSplit d.id '-'
  if keyParts.length = 5 then importResourcesByID d c log
  else importResourcesByName d c log

/-- Source `importABPPolicyResourcesByID`. -/
def importABPPolicyResourcesByID (d : ResourceData) (c : Client) (log : List Request) :
    Except String (List ResourceData) × List Request :=
  match c.GetABPPolicy d.id log with
  | (.ok _, log1) => (.ok [d], log1)
  | (.error _, log1) => (.error ("ABP site ID " ++ d.id ++ " not found, can't import"), log1)

/-- Loop of `importABPPolicyResourcesByName` over the fetched policies; the new
resources are made from the site schema, as in the source. -/
def importABPPolicyResourcesByNameLoop (policyName : String) :
    List ABPPolicyResponse → ResourceData × Bool × List ResourceData →
    ResourceData × Bool × List ResourceData
  | [], st => st
  | policy :: rest, (d, found, extra) =>
    if policyName = policy.Name then
      if found = false then
        importABPPolicyResourcesByNameLoop policyName rest (d.SetId policy.ID, true, extra)
      else
        let cd := (resourceABPSiteData.SetId policy.ID).SetType "incapsula_abp_policy"
        importABPPolicyResourcesByNameLoop policyName rest (d, found, extra ++ [cd])
    else importABPPolicyResourcesByNameLoop policyName rest (d, found, extra)

/-- Source `importABPPolicyResourcesByName`. -/
def importABPPolicyResourcesByName (d : ResourceData) (c : Client) (log : List Request) :
    Except String (List ResourceData) × List Request :=
  let policyName := d.id
  match c.GetABPPoliciesForAccountWithoutID log with
  | (.error err, log1) => (.error err, log1)
  | (.ok policies, log1) =>
    let (d1, _, extra) := importABPPolicyResourcesByNameLoop policyName policies (d, false, [])
    (.ok (d1 :: extra), log1)

/-- The `Importer.State` function of `resourceABPPolicy`. -/
def resourceABPPolicyImporterState (d : ResourceData) (c : Client) (log : List Request) :
    Except String (List ResourceData) × List Request :=
  let keyParts := stringsSplit d.id '-'
  if keyParts.length = 5 then importABPPolicyResourcesByID d c log
  else importABPPolicyResourcesByName d c log

/-- The `Importer.State` function of `resourceABPDomain`; it receives the
client and calls nothing on it. -/
def resourceABPDomainImporterState (d : ResourceData) (_c : Client) (log : List Request) :
    Except String (List ResourceData) × List Request :=
  let keyParts := stringsSplit d.id '-'
  if keyParts.length = 5 then (.ok [d], log)
  else (.error ("ABP domain ID " ++ d.id ++ " not found, can't import"), log)

/-! ## Lifecycle of a site (`resource_abp_site.go`) -/

/-- The SDK calls `d.Set` whose stored value depends on the schema, outside
the sources. A `d.Set(key, v)` writes the attribute `key` only: each field
gives the value the attribute holds after the call and, where the source looks
at it, the error the call returns. -/
structure Sdk where
  SetSelectors : ResourceData → Slice (Option SelectorMap) →
    List (Option SelectorMap) × Option String
  SetDirectives : ResourceData → Slice (Option DirectiveMap) →
    List (Option DirectiveMap) × Option String
  SetMyAccountID : ResourceData → String → Int
  SetNoJSInjectionPaths : ResourceData → Slice String → List String
  SetUnmaskedHeaders : ResourceData → Slice String → List String

/-- Source `resourceABPSiteRead`: the data after the call and the returned error. -/
def resourceABPSiteRead (sdk : Sdk) (d : ResourceData) (c : Client) (log : List Request) :
    (ResourceData × Option String) × List Request :=
  let ID := d.id
  let keyParts := stringsSplit ID '-'
  if keyParts.length ≠ 5 then
    ((d.SetId "", some ("ABP read site, ID was not resolved on import, can't fetch site (" ++
      ID ++ ")")), log)
  else
    match c.GetABPSite ID log with
    | (.error err, log1) =>
      ((d.SetId "", some ("error reading ABP site ID " ++ ID ++ ": " ++ err)), log1)
    | (.ok abpSiteResponse, log1) =>
      let d1 : ResourceData :=
        { d.SetId abpSiteResponse.ID with
          name := abpSiteResponse.Name
          account_id := abpSiteResponse.AccountID
          mx_hostname_id := abpSiteResponse.MxHostnameID }
      if abpSiteResponse.Selectors.len > 0 then
        match sdk.SetSelectors d1 (getSelectorsList abpSiteResponse.Selectors) with
        | (stored, some err) =>
          (({ d1 with selectors := stored },
            some ("error handling ABP site, error setting selectors: " ++ err)), log1)
        | (stored, none) => (({ d1 with selectors := stored }, none), log1)
      else ((d1, none), log1)

/-- The request body `resourceABPSiteCreate` hands to `createABPSite`: what
`fillABPSiteData` left in `site`, with `site.Selectors = []ABPSiteSelector{}`
applied. `Except.error` is a panic of `fillABPSiteData`. -/
def resourceABPSiteCreateBody (d : ResourceData) : Except String ABPCreateSite :=
  match fillABPSiteData d (.create {}) with
  | .error p => .error p
  | .ok (out, _) =>
    let site : ABPCreateSite :=
      match out with
      | .create st => st
      | _ => {}
    .ok { site with Selectors := some [] }

/-- Source `resourceABPSiteCreate`; `Except.error` is a panic. -/
def resourceABPSiteCreate (sdk : Sdk) (d : ResourceData) (c : Client) (log : List Request) :
    Except String ((ResourceData × Option String) × List Request) :=
  match resourceABPSiteCreateBody d with
  | .error p => .error p
  | .ok site =>
    match c.createABPSite site log with
    | (.error err, log1) => .ok ((d, some err), log1)
    | (.ok s, log1) => .ok (resourceABPSiteRead sdk (d.SetId s.ID) c log1)

/-! ## State comparison (`resource_abp_site.go`) -/

/-- Source `compareSelectorsToSchemaResource`; `reflect.DeepEqual` on two
`[]map[string]interface{}` is equality of the embedded values. -/
def compareSelectorsToSchemaResource (selectors : Slice ABPSiteSelector)
    (schemaSelectors : Slice (Option SelectorMap)) : Bool :=
  if selectors.len ≠ schemaSelectors.len then false
  else decide (getSelectorsList selectors = schemaSelectors)

/-- Loop of `compareSiteToSchemaResource` over `d.Get("selectors")`:
`selectors[i] = selector.(map[string]interface{})`. The assertion is unchecked
and panics at the first nil element. -/
def assertSelectorMaps : List (Option SelectorMap) → Except String (List (Option SelectorMap))
  | [] => .ok []
  | none :: _ =>
    .error "interface conversion: interface {} is nil, not map[string]interface {}"
  | some selector :: rest =>
    match assertSelectorMaps rest with
    | .error p => .error p
    | .ok tl => .ok (some selector :: tl)

/-- Source `compareSiteToSchemaResource`; `Except.error` is the panic of the
assertion loop, which runs before anything is compared. -/
def compareSiteToSchemaResource (d : ResourceData) (site : ABPSiteResponse) :
    Except String Bool :=
  let name := d.name
  let (mxHostnameRes, ok) := d.GetOkMxHostnameID
  let mxHostname := if ok then mxHostnameRes else ""
  let siteMXHostname :=
    match site.MxHostnameID with
    | some v => v
    | none => ""
  match assertSelectorMaps d.selectors with
  | .error p => .error p
  | .ok maps =>
    let selectors : Slice (Option SelectorMap) := some maps
    if name ≠ site.Name ∨ mxHostname ≠ siteMXHostname ∨
        selectors.len ≠ site.Selectors.len then
      .ok false
    else .ok (compareSelectorsToSchemaResource site.Selectors selectors)

/-! ## Helpers for stating the properties -/

/-- Number of criteria fields set on a wire selector. -/
def Criteria.setCount (c : Criteria) : Nat :=
  c.Postback.isSome.toNat + c.PathPrefix.isSome.toNat + c.PathRegex.isSome.toNat

/-- The value `getSelectorsList` reads first: `PathPrefix`, then `PathRegex`,
then `Postback`. -/
def Criteria.firstSet (c : Criteria) : Option String :=
  (c.PathPrefix.orElse fun _ => c.PathRegex).orElse fun _ => c.Postback

/-- A declared selector as the schema hands it to `fillABPSiteData`: all five
keys present, `policy_id` and `derived_id` empty. -/
def declaredSelector (kind value rate : String) : Option SelectorMap :=
  some { policy_id := some "", criteria_type := some kind, criteria_value := some value,
         analysis_rate_limiting := some rate, derived_id := some "" }

/-- Encode one declared selector with `fillABPSiteData` and decode the result
with `getSelectorsList`. -/
def roundTrip (kind value rate : String) : Except String (Slice (Option SelectorMap)) :=
  match fillABPSiteData { selectors := [declaredSelector kind value rate] } (.update {}) with
  | .error p => .error p
  | .ok (.update site, _) => .ok (getSelectorsList site.Selectors)
  | .ok (_, _) => .ok none

/-- A wire selector with two criteria fields set at once. -/
def twoCriteriaSelector : ABPSiteSelector :=
  { Criteria := { Postback := some "b", PathPrefix := some "/a" },
    AnalysisSettings := { RateLimiting := "1" } }

/-- The resource `importResourcesByName` makes for a further matching site. -/
def newSiteResource (ID : String) : ResourceData :=
  (resourceABPSiteData.SetId ID).SetType "incapsula_abp_site"

/-- The resource `importABPPolicyResourcesByName` makes for a further matching policy. -/
def newPolicyResource (ID : String) : ResourceData :=
  (resourceABPSiteData.SetId ID).SetType "incapsula_abp_policy"

/-- A stub remote: every request is answered with status 200, the root lookup
parses to account `acc-1`, the listings parse to the given entities. -/
def listingClient (sites : List ABPSiteResponse) (policies : List ABPPolicyResponse) : Client :=
  { BaseURLAPI := "https://api"
    DoJsonRequestWithHeaders := fun _ req => .ok ⟨200, req.url⟩
    unmarshalRoot := fun _ => .ok ⟨"acc-1"⟩
    unmarshalAccount := fun _ => .error "no account"
    unmarshalSite := fun _ => .error "no site"
    unmarshalSites := fun _ => .ok sites
    unmarshalPolicy := fun _ => .error "no policy"
    unmarshalPolicies := fun _ => .ok policies
    marshalCreateSite := fun _ => .ok ""
    fmtCreateSite := fun _ => ""
    unmarshalDomain := fun _ => .error "no domain"
    marshalPolicy := fun _ => .ok ""
    fmtPolicy := fun _ => ""
    marshalCreateDomain := fun _ => .ok ""
    fmtCreateDomain := fun _ => ""
    marshalUpdateDomain := fun _ => .ok ""
    fmtUpdateDomain := fun _ => "" }

/-- Remote sites named x, y, x. -/
def sitesXYX : List ABPSiteResponse :=
  [{ Name := "x", ID := "1-1-1-1-1" }, { Name := "y", ID := "2-2-2-2-2" },
   { Name := "x", ID := "3-3-3-3-3" }]

/-- Remote policies named x, y, x. -/
def policiesXYX : List ABPPolicyResponse :=
  [{ Name := "x", ID := "4-4-4-4-4" }, { Name := "y", ID := "5-5-5-5-5" },
   { Name := "x", ID := "6-6-6-6-6" }]

/-- The request `GetABPAccountID` issues. -/
def Client.rootRequest (c : Client) : Request :=
  ⟨MethodGet, c.BaseURLAPI ++ ABPRootAPIPath, none, .ReadABPAccount⟩

/-- The request `GetABPSite` issues for a non-empty id. -/
def Client.siteRequest (c : Client) (siteID : String) : Request :=
  ⟨MethodGet, c.BaseURLAPI ++ ABPSiteAPIPath ++ "/" ++ siteID, none, .ReadABPSite⟩

/-- The request `GetABPPolicy` issues for a non-empty id. -/
def Client.policyRequest (c : Client) (policyID : String) : Request :=
  ⟨MethodGet, c.BaseURLAPI ++ ABPPolicyAPIPath ++ "/" ++ policyID, none, .ReadABPPolicy⟩

/-- A stub remote whose transport always fails. -/
def failingClient : Client :=
  { listingClient [] [] with DoJsonRequestWithHeaders := fun _ _ => .error "connection refused" }

/-- A stub SDK whose `d.Set` stores the value it is given and returns no error;
an account number it cannot read is stored as 0. -/
def storingSdk : Sdk :=
  { SetSelectors := fun _ v => (v.toList, none)
    SetDirectives := fun _ v => (v.toList, none)
    SetMyAccountID := fun _ v => (v.toInt?).getD 0
    SetNoJSInjectionPaths := fun _ v => v.toList
    SetUnmaskedHeaders := fun _ v => v.toList }

/-- The declared site of the end-to-end scenario: name `S1`, one selector with
`path_prefix` `/a` and rate limiting `100`. -/
def declaredS1 : ResourceData :=
  { name := "S1", selectors := [declaredSelector "path_prefix" "/a" "100"] }

/-- The bodies the JSON stub of `echoClient` knows: `S1` with its declared
selector, and `S1` with an empty selector list. -/
def echoBook : List ABPCreateSite :=
  [{ Name := "S1",
     Selectors := some [{ Criteria := { PathPrefix := some "/a" },
                          AnalysisSettings := { RateLimiting := "100" } }] },
   { Name := "S1", Selectors := some [] }]

/-- A stub remote that echoes the submitted body plus the assigned id
`9-9-9-9-9` and the account id `acc-1`. A POST is answered 201 with the body it
carried; a GET of a site is answered 200 with the body of the latest POST. The
JSON stub writes a body as its index in `echoBook` and reads it back, adding
the id and the account id. -/
def echoClient : Client :=
  { BaseURLAPI := "https://api"
    DoJsonRequestWithHeaders := fun log req =>
      if req.method = MethodPost then .ok ⟨201, req.data.getD ""⟩
      else if req.operation = .ReadABPAccount then .ok ⟨200, "root"⟩
      else
        match log.reverse.find? fun r => r.method = MethodPost with
        | some p => .ok ⟨200, p.data.getD ""⟩
        | none => .ok ⟨404, ""⟩
    unmarshalRoot := fun _ => .ok ⟨"acc-1"⟩
    unmarshalAccount := fun _ => .error "no account"
    unmarshalSite := fun body =>
      match echoBook[body.length]? with
      | some v => .ok { toABPCreateSite := v, ID := "9-9-9-9-9", AccountID := "acc-1" }
      | none => .error "unexpected body"
    unmarshalSites := fun _ => .error "no listing"
    unmarshalPolicy := fun _ => .error "no policy"
    unmarshalPolicies := fun _ => .error "no listing"
    marshalCreateSite := fun v => .ok (String.mk (List.replicate (echoBook.indexOf v) 'i'))
    fmtCreateSite := fun _ => ""
    unmarshalDomain := fun _ => .error "no domain"
    marshalPolicy := fun _ => .ok ""
    fmtPolicy := fun _ => ""
    marshalCreateDomain := fun _ => .ok ""
    fmtCreateDomain := fun _ => ""
    marshalUpdateDomain := fun _ => .ok ""
    fmtUpdateDomain := fun _ => "" }

/-- The POST request `createABPSite` issues. -/
def Client.createSiteRequest (c : Client) (accountID valJSON : String) : Request :=
  ⟨MethodPost, c.BaseURLAPI ++ ABPAccountAPIPath ++ "/" ++ accountID ++ "/" ++ "site",
    some valJSON, .CreateABPSite⟩

/-- A remote site whose MX hostname is present and is the empty string. -/
def siteEmptyMx : ABPSiteResponse :=
  { Name := "n", MxHostnameID := some "", ID := "1-1-1-1-1", AccountID := "acc-1",
    Selectors := some [{ PolicyID := some "p", Criteria := { PathPrefix := some "/a" },
                         AnalysisSettings := { RateLimiting := "1" }, DerivedID := some "d" }] }

/-- A declared site of the same name and selector, with no MX hostname. -/
def localNoMx : ResourceData :=
  { name := "n", mx_hostname_id := none,
    selectors := [some { policy_id := some "p", criteria_type := some "path_prefix",
                         criteria_value := some "/a", analysis_rate_limiting := some "1",
                         derived_id := some "d" }] }

/-- Wire selector with the single criteria field `path_prefix`. -/
def prefixSelector (value rate : String) : ABPSiteSelector :=
  { Criteria := { PathPrefix := some value }, AnalysisSettings := { RateLimiting := rate } }

/-! ## Further client functions (`client_abp_{domain,policy,site}.go`) -/

/-- Source `GetABPDomain`. -/
def Client.GetABPDomain (c : Client) (domainID : String) (log : List Request) :
    Except String ABPDomainResponse × List Request :=
  if domainID.length = 0 then (.error "can't fetch empty domain ID", log)
  else
    let (r, log1) := c.send
      ⟨MethodGet, c.BaseURLAPI ++ ABPDomainAPIPath ++ "/" ++ domainID, none, .ReadABPDomain⟩ log
    match r with
    | .error _ => (.error ("error from ABP API when reading domain ID " ++ domainID), log1)
    | .ok resp =>
      if resp.StatusCode ≠ 200 then
        (.error ("error status code " ++ toString resp.StatusCode ++
          " from ABP API when reading domain ID " ++ domainID ++ ": " ++ resp.Body), log1)
      else
        match c.unmarshalDomain resp.Body with
        | .error err =>
          (.error ("error parsing JSON response for domain ID " ++ domainID ++ ": " ++ err ++
            ". response: " ++ resp.Body), log1)
        | .ok abpDomainResponse => (.ok abpDomainResponse, log1)

/-- Source `updateABPDomain`. -/
def Client.updateABPDomain (c : Client) (domainID : String) (val : ABPUpdateDomain)
    (log : List Request) : Except String ABPDomainResponse × List Request :=
  match c.marshalUpdateDomain val with
  | .error e =>
    (.error ("failed to JSON marshal ABP domain " ++ c.fmtUpdateDomain val ++ ": " ++ e), log)
  | .ok valJSON =>
    let (r, log1) := c.send
      ⟨MethodPut, c.BaseURLAPI ++ ABPDomainAPIPath ++ "/" ++ domainID, some valJSON,
        .UpdateABPDomain⟩ log
    match r with
    | .error e =>
      (.error ("error from ABP API while updating domain " ++ domainID ++ ": " ++ e), log1)
    | .ok resp =>
      if resp.StatusCode ≠ 200 then
        (.error ("error status code " ++ toString resp.StatusCode ++
          " from ABP API when updating domain " ++ domainID ++ ": " ++ resp.Body ++ "\n"), log1)
      else
        match c.unmarshalDomain resp.Body with
        | .error e =>
          (.error ("error parsing JSON response for ABP domain ID " ++ domainID ++ ": " ++ e ++
            "\nresponse: " ++ resp.Body ++ "\n"), log1)
        | .ok updatedDomain => (.ok updatedDomain, log1)

/-- Source `createABPDomain`. -/
def Client.createABPDomain (c : Client) (val : ABPCreateDomain) (log : List Request) :
    Except String ABPDomainResponse × List Request :=
  let ((accountID, err), log1) := c.GetABPAccountID log
  match err with
  | some e => (.error e, log1)
  | none =>
    match c.marshalCreateDomain val with
    | .error e =>
      (.error ("failed to JSON marshal ABP domain " ++ c.fmtCreateDomain val ++ ": " ++ e), log1)
    | .ok valJSON =>
      let (r, log2) := c.send
        ⟨MethodPost, c.BaseURLAPI ++ ABPAccountAPIPath ++ "/" ++ accountID ++ "/" ++ "domain",
          some valJSON, .CreateABPDomain⟩ log1
      match r with
      | .error e =>
        (.error ("error from ABP API while creating domain under account ID " ++ accountID ++
          ": " ++ e), log2)
      | .ok resp =>
        if resp.StatusCode ≠ 201 then
          (.error ("Error status code " ++ toString resp.StatusCode ++
            " from ABP API when creating domain under account ID " ++ accountID ++ ": " ++
            resp.Body ++ "\n"), log2)
        else
          match c.unmarshalDomain resp.Body with
          | .error e =>
            (.error ("Error parsing JSON response for creating ABP domain under account ID " ++
              accountID ++ ": " ++ e ++ "\nresponse: " ++ resp.Body ++ "\n"), log2)
          | .ok createDomain => (.ok createDomain, log2)

/-- Source `createABPPolicy`. -/
def Client.createABPPolicy (c : Client) (val : ABPCreateUpdatePolicy) (log : List Request) :
    Except String ABPPolicyResponse × List Request :=
  let ((accountID, err), log1) := c.GetABPAccountID log
  match err with
  | some e => (.error e, log1)
  | none =>
    match c.marshalPolicy val with
    | .error e =>
      (.error ("failed to JSON marshal ABP policy " ++ c.fmtPolicy val ++ ": " ++ e), log1)
    | .ok valJSON =>
      let (r, log2) := c.send
        ⟨MethodPost, c.BaseURLAPI ++ ABPAccountAPIPath ++ "/" ++ accountID ++ "/" ++ "policy",
          some valJSON, .CreateABPPolicy⟩ log1
      match r with
      | .error e =>
        (.error ("error from ABP API while creating policy under account ID " ++ accountID ++
          ": " ++ e), log2)
      | .ok resp =>
        if resp.StatusCode ≠ 201 then
          (.error ("Error status code " ++ toString resp.StatusCode ++
            " from ABP API when creating policy under account ID " ++ accountID ++ ": " ++
            resp.Body ++ "\n"), log2)
        else
          match c.unmarshalPolicy resp.Body with
          | .error e =>
            (.error ("Error parsing JSON response for creating ABP policy under account ID " ++
              accountID ++ ": " ++ e ++ "\nresponse: " ++ resp.Body ++ "\n"), log2)
          | .ok createPolicy => (.ok createPolicy, log2)

/-- Source `deleteABPSite`: the returned error, `none` for success. -/
def Client.deleteABPSite (c : Client) (siteID : String) (log : List Request) :
    Option String × List Request :=
  let (r, log1) := c.send
    ⟨MethodDelete, c.BaseURLAPI ++ ABPSiteAPIPath ++ "/" ++ siteID, none, .DeleteABPSite⟩ log
  match r with
  | .error e =>
    (some ("error from ABP API while deleting site ID " ++ siteID ++ ": " ++ e), log1)
  | .ok resp =>
    if resp.StatusCode ≠ 200 then
      (some ("error status code " ++ toString resp.StatusCode ++
        " from CSP API when deleting site ID " ++ siteID), log1)
    else (none, log1)

/-- Source `resourceABPSiteDelete`. -/
def resourceABPSiteDelete (d : ResourceData) (c : Client) (log : List Request) :
    Option String × List Request :=
  c.deleteABPSite d.id log

/-! ## The account resource (`resource_abp_account.go`) -/

/-- Source `resourceABPAccountRead`: the data after the call and the returned
error. -/
def resourceABPAccountRead (sdk : Sdk) (d : ResourceData) (c : Client) (log : List Request) :
    (ResourceData × Option String) × List Request :=
  let ID := d.id
  match c.GetABPAccount ID log with
  | (.error err, log1) =>
    ((d.SetId "", some ("[ERROR] Could not read ABP account " ++ ID ++ ": " ++ err)), log1)
  | (.ok abpAccountResponse, log1) =>
    let d1 : ResourceData :=
      { d with my_account_id := sdk.SetMyAccountID d abpAccountResponse.MYAccountID }
    let d2 : ResourceData := { d1 with name := abpAccountResponse.Name }
    ((d2.SetId abpAccountResponse.ID, none), log1)

/-- Source `resourceABPAccountUpdate`. -/
def resourceABPAccountUpdate (sdk : Sdk) (d : ResourceData) (c : Client) (log : List Request) :
    (ResourceData × Option String) × List Request :=
  resourceABPAccountRead sdk d c log

/-- Source `resourceABPAccountDelete`. -/
def resourceABPAccountDelete (d : ResourceData) (_c : Client) (log : List Request) :
    (ResourceData × Option String) × List Request :=
  ((d, none), log)

/-- The functions a `schema.Resource` of these sources names as a callback. -/
inductive Callback where
  | resourceABPAccountRead
  | resourceABPAccountUpdate
  | resourceABPAccountDelete
  | resourceCSPSiteDomainDelete
deriving DecidableEq, Repr

/-- The lifecycle callbacks of a `schema.Resource`; `none` is `nil`. -/
structure ResourceCallbacks where
  Create : Option Callback
  Read : Option Callback
  Update : Option Callback
  Delete : Option Callback
deriving DecidableEq, Repr

/-- Source `resourceABPAccount`: the callbacks it registers. -/
def resourceABPAccount : ResourceCallbacks :=
  { Create := none
    Read := some .resourceABPAccountRead
    Update := none
    Delete := some .resourceCSPSiteDomainDelete }

/-- Running a callback. `resourceCSPSiteDomainDelete` is defined outside these
sources and is the argument `cspDelete`. -/
def Callback.run (sdk : Sdk)
    (cspDelete : ResourceData → Client → List Request →
      (ResourceData × Option String) × List Request) :
    Callback → ResourceData → Client → List Request →
      (ResourceData × Option String) × List Request
  | .resourceABPAccountRead => Incapsula.resourceABPAccountRead sdk
  | .resourceABPAccountUpdate => Incapsula.resourceABPAccountUpdate sdk
  | .resourceABPAccountDelete => Incapsula.resourceABPAccountDelete
  | .resourceCSPSiteDomainDelete => cspDelete

/-! ## The domain resource (`resource_abp_domain.go`) -/

/-- Source `resourceABPDomainRead`. -/
def resourceABPDomainRead (sdk : Sdk) (d : ResourceData) (c : Client) (log : List Request) :
    (ResourceData × Option String) × List Request :=
  let ID := d.id
  match c.GetABPDomain ID log with
  | (.error err, log1) =>
    ((d.SetId "", some ("error reading ABP policy ID " ++ ID ++ ": " ++ err)), log1)
  | (.ok abpDomainResponse, log1) =>
    let d1 : ResourceData :=
      { d.SetId abpDomainResponse.ID with
        account_id := abpDomainResponse.AccountID
        site_id := abpDomainResponse.SiteID
        challenge_ip_lookup_mode := abpDomainResponse.ChallengeIPLookupMode
        analysis_ip_lookup_mode := abpDomainResponse.AnalysisIPLookupMode
        criteria := abpDomainResponse.Criteria
        cookiescope := abpDomainResponse.CookieScope
        captcha_settings := abpDomainResponse.CaptchaSettings
        log_region := abpDomainResponse.LogRegion
        obfuscate_path := abpDomainResponse.ObfuscatePath
        mobile_api_obfuscate_path := abpDomainResponse.MobileAPIObfuscatePath
        cookie_mode := abpDomainResponse.CookieMode }
    let d2 : ResourceData :=
      { d1 with
        no_js_injection_paths := sdk.SetNoJSInjectionPaths d1 abpDomainResponse.NoJSInjectionPaths }
    let d3 : ResourceData :=
      { d2 with unmasked_headers := sdk.SetUnmaskedHeaders d2 abpDomainResponse.UnmaskedHeaders }
    ((d3, none), log1)

/-- The request body `resourceABPDomainUpdate` hands to `updateABPDomain`:
`domain := ABPUpdateDomain{}`; the call that would fill it is commented out. -/
def resourceABPDomainUpdateBody (_d : ResourceData) : ABPUpdateDomain := {}

/-- Source `resourceABPDomainUpdate`. -/
def resourceABPDomainUpdate (sdk : Sdk) (d : ResourceData) (c : Client) (log : List Request) :
    (ResourceData × Option String) × List Request :=
  let ID := d.id
  let domain := resourceABPDomainUpdateBody d
  match c.updateABPDomain ID domain log with
  | (.error err, log1) => ((d, some err), log1)
  | (.ok _, log1) => resourceABPDomainRead sdk d c log1

/-! ## The policy resource (`resource_abp_policy.go`) -/

/-- Loop of `getDirectivesList`. `*directive.ConditionID` on a nil pointer
panics. -/
def getDirectivesListEntries :
    List ABPPolicyDirective → Except String (List (Option DirectiveMap))
  | [] => .ok []
  | directive :: rest =>
    match directive.ConditionID with
    | none => .error "runtime error: invalid memory address or nil pointer dereference"
    | some conditionID =>
      match getDirectivesListEntries rest with
      | .error p => .error p
      | .ok tl =>
        .ok (some { action := some directive.Action, condition_id := some conditionID } :: tl)

/-- Source `getDirectivesList`; `Except.error` is a panic. -/
def getDirectivesList (directives : Slice ABPPolicyDirective) :
    Except String (Slice (Option DirectiveMap)) :=
  if directives.len = 0 then .ok none
  else
    match getDirectivesListEntries directives.toList with
    | .error p => .error p
    | .ok ret => .ok (some ret)

/-- Source `resourceABPPolicyRead`: the data when the call ends, and how it
ends: `Except.ok` with the returned error, or `Except.error` with a panic. -/
def resourceABPPolicyRead (sdk : Sdk) (d : ResourceData) (c : Client) (log : List Request) :
    (ResourceData × Except String (Option String)) × List Request :=
  let ID := d.id
  let keyParts := stringsSplit ID '-'
  if keyParts.length ≠ 5 then
    ((d.SetId "", .ok (some
      ("ABP read policy, ID was not resolved on import, can't fetch site (" ++ ID ++ ")"))), log)
  else
    match c.GetABPPolicy ID log with
    | (.error err, log1) =>
      ((d.SetId "", .ok (some ("error reading ABP policy ID " ++ ID ++ ": " ++ err))), log1)
    | (.ok abpPolicyResponse, log1) =>
      let d1 : ResourceData :=
        { d.SetId abpPolicyResponse.ID with
          name := abpPolicyResponse.Name
          account_id := abpPolicyResponse.AccountID }
      let d2 : ResourceData :=
        match abpPolicyResponse.Description with
        | some v => { d1 with description := v }
        | none => d1
      if abpPolicyResponse.Directives.len > 0 then
        match getDirectivesList abpPolicyResponse.Directives with
        | .error p => ((d2, .error p), log1)
        | .ok decoded =>
          match sdk.SetDirectives d2 decoded with
          | (stored, some err) =>
            (({ d2 with directives := stored },
              .ok (some ("error handling ABP policy, error setting directives: " ++ err))), log1)
          | (stored, none) => (({ d2 with directives := stored }, .ok none), log1)
      else ((d2, .ok none), log1)

/-! ## Further helpers for stating the properties -/

/-- The request `GetABPAccount` issues for a non-empty id. -/
def Client.accountRequest (c : Client) (accountID : String) : Request :=
  ⟨MethodGet, c.BaseURLAPI ++ ABPAccountAPIPath ++ "/" ++ accountID, none, .ReadABPAccount⟩

/-- The request `GetABPDomain` issues for a non-empty id. -/
def Client.domainRequest (c : Client) (domainID : String) : Request :=
  ⟨MethodGet, c.BaseURLAPI ++ ABPDomainAPIPath ++ "/" ++ domainID, none, .ReadABPDomain⟩

/-- The request `deleteABPSite` issues. -/
def Client.deleteSiteRequest (c : Client) (siteID : String) : Request :=
  ⟨MethodDelete, c.BaseURLAPI ++ ABPSiteAPIPath ++ "/" ++ siteID, none, .DeleteABPSite⟩

/-- The POST request `createABPPolicy` issues. -/
def Client.createPolicyRequest (c : Client) (accountID valJSON : String) : Request :=
  ⟨MethodPost, c.BaseURLAPI ++ ABPAccountAPIPath ++ "/" ++ accountID ++ "/" ++ "policy",
    some valJSON, .CreateABPPolicy⟩

/-- The POST request `createABPDomain` issues. -/
def Client.createDomainRequest (c : Client) (accountID valJSON : String) : Request :=
  ⟨MethodPost, c.BaseURLAPI ++ ABPAccountAPIPath ++ "/" ++ accountID ++ "/" ++ "domain",
    some valJSON, .CreateABPDomain⟩

/-- The PUT request `updateABPDomain` issues. -/
def Client.updateDomainRequest (c : Client) (domainID valJSON : String) : Request :=
  ⟨MethodPut, c.BaseURLAPI ++ ABPDomainAPIPath ++ "/" ++ domainID, some valJSON,
    .UpdateABPDomain⟩

/-- A stub remote: the root lookup is answered 200 and parses to account
`acc-1`; every other request is answered with the given status and the body
`raw body`; every entity body parses to the given site or policy, or to a fixed
account or domain. -/
def stubClient (status : Int) (site : ABPSiteResponse) (policy : ABPPolicyResponse) : Client :=
  { BaseURLAPI := "https://api"
    DoJsonRequestWithHeaders := fun _ req =>
      if req.url = "https://api/botmanagement/v1/" then .ok ⟨200, "root"⟩
      else .ok ⟨status, "raw body"⟩
    unmarshalRoot := fun _ => .ok ⟨"acc-1"⟩
    unmarshalAccount := fun _ => .ok { Name := "main", ID := "7-7-7-7-7", MYAccountID := "42" }
    unmarshalSite := fun _ => .ok site
    unmarshalSites := fun _ => .ok [site]
    unmarshalPolicy := fun _ => .ok policy
    unmarshalPolicies := fun _ => .ok [policy]
    marshalCreateSite := fun _ => .ok "site json"
    fmtCreateSite := fun _ => ""
    unmarshalDomain := fun _ => .ok { ID := "8-8-8-8-8", AccountID := "acc-1" }
    marshalPolicy := fun _ => .ok "policy json"
    fmtPolicy := fun _ => ""
    marshalCreateDomain := fun _ => .ok "domain json"
    fmtCreateDomain := fun _ => ""
    marshalUpdateDomain := fun _ => .ok "domain json"
    fmtUpdateDomain := fun _ => "" }

/-- A remote site `S1` with id `9-9-9-9-9` and no selectors. -/
def siteNoSelectors : ABPSiteResponse :=
  { Name := "S1", ID := "9-9-9-9-9", AccountID := "acc-1" }

/-- A remote site `S1` with id `9-9-9-9-9` and the selector `path_prefix` `/a`. -/
def siteOneSelector : ABPSiteResponse :=
  { Name := "S1", ID := "9-9-9-9-9", AccountID := "acc-1",
    Selectors := some [{ Criteria := { PathPrefix := some "/a" },
                         AnalysisSettings := { RateLimiting := "100" } }] }

/-- A remote policy with one directive that has no condition id. -/
def policyNoCondition : ABPPolicyResponse :=
  { Name := "P1", ID := "6-6-6-6-6", AccountID := "acc-1",
    Directives := some [{ Action := "block", ConditionID := none }] }

/-- A remote policy with one directive and its condition id. -/
def policyOneDirective : ABPPolicyResponse :=
  { Name := "P1", ID := "6-6-6-6-6", AccountID := "acc-1",
    Directives := some [{ Action := "block", ConditionID := some "c-1" }] }

/-- The data after the scalar writes of a successful `resourceABPSiteRead`,
before the selectors are looked at. -/
def siteReadScalars (d : ResourceData) (r : ABPSiteResponse) : ResourceData :=
  { d with id := r.ID, name := r.Name, account_id := r.AccountID,
           mx_hostname_id := r.MxHostnameID }

/-- A declared domain with values in its mutable fields. -/
def declaredDomain : ResourceData :=
  { id := "8-8-8-8-8", challenge_ip_lookup_mode := "header", analysis_ip_lookup_mode := "header",
    cookiescope := "example.com", captcha_settings := "recaptcha", log_region := "eu",
    obfuscate_path := "/js", cookie_mode := "lax", no_js_injection_paths := ["/static"],
    unmasked_headers := ["x-real-ip"] }

/-! ## Directive encoding (`resource_abp_policy.go`) -/

/-- Body of the loop of `fillABPPolicyData`: the wire directive built from one
element of `d.Get("directives")`. The type assertion
`.(map[string]interface{})` on a nil element panics, and so does `.(string)` on
a missing key. -/
def fillABPPolicyDirective (dir : Option DirectiveMap) : Except String ABPPolicyDirective :=
  match dir with
  | none => .error "interface conversion: interface {} is nil, not map[string]interface {}"
  | some directive =>
    match directive.condition_id, directive.action with
    | some conditionID, some action =>
      .ok { Action := action, ConditionID := some conditionID }
    | _, _ => .error "interface conversion: interface {} is nil, not string"

/-- Directive loop of `fillABPPolicyData`, accumulating with `append`. -/
def fillABPPolicyDirectives : List (Option DirectiveMap) → Slice ABPPolicyDirective →
    Except String (Slice ABPPolicyDirective)
  | [], acc => .ok acc
  | dir :: rest, acc =>
    match fillABPPolicyDirective dir with
    | .error e => .error e
    | .ok policyDirective => fillABPPolicyDirectives rest (acc.push policyDirective)

/-- Source `fillABPPolicyData`: the value left in `out` (the returned error is
always nil); `Except.error` is a panic. -/
def fillABPPolicyData (d : ResourceData) (out : ABPCreateUpdatePolicy) :
    Except String ABPCreateUpdatePolicy :=
  let out1 : ABPCreateUpdatePolicy := { out with Name := d.name }
  let out2 : ABPCreateUpdatePolicy :=
    if d.description.length > 0 then { out1 with Description := some d.description } else out1
  match fillABPPolicyDirectives d.directives out2.Directives with
  | .error e => .error e
  | .ok dirs => .ok { out2 with Directives := dirs }

/-! ## Declared values as the schema supplies them -/

/-- A selector map as `d.Get("selectors")` supplies it: not nil, with all five
schema keys present. -/
def schemaSuppliedSelector (s : Option SelectorMap) : Bool :=
  match s with
  | none => false
  | some m =>
    m.policy_id.isSome && m.criteria_type.isSome && m.criteria_value.isSome &&
      m.analysis_rate_limiting.isSome && m.derived_id.isSome

/-- A directive map as `d.Get("directives")` supplies it: not nil, with both
schema keys present. -/
def schemaSuppliedDirective (s : Option DirectiveMap) : Bool :=
  match s with
  | none => false
  | some m => m.condition_id.isSome && m.action.isSome

/-- The entry `getDirectivesList` writes for a directive that has a condition
id. -/
def directiveEntry (action conditionID : String) : Option DirectiveMap :=
  some { action := some action, condition_id := some conditionID }

/-- A wire selector with no criteria field set. -/
def noCriteriaSelector : ABPSiteSelector :=
  { AnalysisSettings := { RateLimiting := "1" } }

/-- A declared site with the three kinds of criteria, one selector each. -/
def declaredThreeKinds : ResourceData :=
  { name := "S1",
    selectors := [declaredSelector "postback" "pb" "10", declaredSelector "path_prefix" "/a" "20",
                  declaredSelector "path_regex" "^/b" "30"] }

/-- A declared policy with two directives. -/
def declaredPolicy : ResourceData :=
  { name := "P1", description := "main policy",
    directives := [directiveEntry "block" "c-1", directiveEntry "captcha" "c-2"] }

/-! ## Properties -/

/-- C1 (evaluation of the code): decoding what `fillABPSiteData` encodes
returns the criteria value for all three kinds, but the decoded `criteria_type`
is `path_prefix` whatever the kind was: `postback` and `path_regex` do not
round-trip, `path_prefix` does. -/
theorem C1_roundtrip_type_is_always_path_prefix (v rate : String) :
    roundTrip "postback" v rate = .ok (some [some
      { criteria_type := some "path_prefix", criteria_value := some v,
        analysis_rate_limiting := some rate, policy_id := none, derived_id := none }]) ∧
    roundTrip "path_regex" v rate = .ok (some [some
      { criteria_type := some "path_prefix", criteria_value := some v,
        analysis_rate_limiting := some rate, policy_id := none, derived_id := none }]) ∧
    roundTrip "path_prefix" v rate = .ok (some [some
      { criteria_type := some "path_prefix", criteria_value := some v,
        analysis_rate_limiting := some rate, policy_id := none, derived_id := none }]) := by
  refine ⟨?_, ?_, ?_⟩ <;>
    simp [roundTrip, fillABPSiteData, fillABPSiteSelectors, fillABPSiteSelector,
      declaredSelector, ABPSelectorCriteriaPostback, ABPSelectorCriteriaPathPrefix,
      ABPSelectorCriteriaPathRegex, Slice.push, Slice.toList, Slice.len, getSelectorsList,
      getSelectorsListEntry]

/-- Decoding one selector: an entry exists exactly when a criteria field is
set, and it carries the first set value. -/
theorem getSelectorsListEntry_eq (sel : ABPSiteSelector) :
    getSelectorsListEntry sel =
      sel.Criteria.firstSet.map fun v =>
        { criteria_type := some "path_prefix", criteria_value := some v,
          analysis_rate_limiting := some sel.AnalysisSettings.RateLimiting,
          policy_id := sel.PolicyID, derived_id := sel.DerivedID } := by
  unfold getSelectorsListEntry Criteria.firstSet
  cases sel.Criteria.PathPrefix <;> cases sel.Criteria.PathRegex <;>
    cases sel.Criteria.Postback <;> rfl

/-- A non-empty list decodes entry by entry. -/
theorem getSelectorsList_getElem? (sels : List ABPSiteSelector) (i : Nat) :
    (getSelectorsList (some sels)).toList[i]? = sels[i]?.map getSelectorsListEntry := by
  unfold getSelectorsList
  cases sels with
  | nil => simp [Slice.len, Slice.toList]
  | cons a l =>
    simp only [Slice.len, Slice.toList, List.length_cons, Nat.add_one_ne_zero, if_false]
    exact List.getElem?_map _ _ _

/-- Two or three set criteria fields leave a first set value. -/
theorem Criteria.firstSet_isSome_of_setCount (c : Criteria) (h : 1 ≤ c.setCount) :
    ∃ v, c.firstSet = some v := by
  unfold Criteria.setCount at h
  unfold Criteria.firstSet
  cases hp : c.PathPrefix <;> cases hr : c.PathRegex <;> cases hb : c.Postback <;>
    simp_all

/-- C2 (counterexample): a selector with `postback` and `path_prefix` both set
is decoded to an entry with the criteria value `/a`; it is not dropped. -/
theorem C2_two_fields_set_is_decoded :
    twoCriteriaSelector.Criteria.setCount = 2 ∧
    getSelectorsList (some [twoCriteriaSelector]) = some [some
      { criteria_type := some "path_prefix", criteria_value := some "/a",
        analysis_rate_limiting := some "1", policy_id := none, derived_id := none }] := by
  constructor
  · rfl
  · rfl

/-- C2 (amended): a selector with two or three criteria fields set is decoded
like any other: the decoded list holds, at the selector's position, an entry
whose criteria value is the first field set in the order `path_prefix`,
`path_regex`, `postback`, with the selector's rate limiting, policy id and
derived id. -/
theorem C2_multi_criteria_first_set_wins (sels : List ABPSiteSelector) (i : Nat)
    (sel : ABPSiteSelector) (hi : sels[i]? = some sel) (h2 : 2 ≤ sel.Criteria.setCount) :
    ∃ v m, sel.Criteria.firstSet = some v ∧
      (getSelectorsList (some sels)).toList[i]? = some (some m) ∧
      m.criteria_value = some v ∧
      m.analysis_rate_limiting = some sel.AnalysisSettings.RateLimiting ∧
      m.policy_id = sel.PolicyID ∧ m.derived_id = sel.DerivedID := by
  obtain ⟨v, hv⟩ := Criteria.firstSet_isSome_of_setCount sel.Criteria (by omega)
  refine ⟨v, SelectorMap.mk sel.PolicyID (some "path_prefix") (some v)
    (some sel.AnalysisSettings.RateLimiting) sel.DerivedID, hv, ?_, rfl, rfl, rfl, rfl⟩
  rw [getSelectorsList_getElem?, hi, Option.map_some', getSelectorsListEntry_eq, hv]
  rfl

/-- C2 (witness): the amended statement at `twoCriteriaSelector`. -/
theorem C2_multi_criteria_first_set_wins_witness :
    [twoCriteriaSelector][0]? = some twoCriteriaSelector ∧
    2 ≤ twoCriteriaSelector.Criteria.setCount ∧
    ∃ v m, twoCriteriaSelector.Criteria.firstSet = some v ∧
      (getSelectorsList (some [twoCriteriaSelector])).toList[0]? = some (some m) ∧
      m.criteria_value = some v ∧
      m.analysis_rate_limiting = some twoCriteriaSelector.AnalysisSettings.RateLimiting ∧
      m.policy_id = twoCriteriaSelector.PolicyID ∧
      m.derived_id = twoCriteriaSelector.DerivedID :=
  ⟨rfl, by decide,
    C2_multi_criteria_first_set_wins [twoCriteriaSelector] 0 twoCriteriaSelector rfl
      (by decide)⟩

/-- Once a match was found, every further match appends a new resource. -/
theorem importResourcesByNameLoop_found (siteName : String) (sites : List ABPSiteResponse)
    (d : ResourceData) (extra : List ResourceData) :
    importResourcesByNameLoop siteName sites (d, true, extra) =
      (d, true, extra ++
        ((sites.filter fun s => decide (siteName = s.Name)).map fun s => newSiteResource s.ID)) := by
  induction sites generalizing extra with
  | nil => simp [importResourcesByNameLoop]
  | cons s rest ih =>
    by_cases h : siteName = s.Name
    · simp [importResourcesByNameLoop, ← h, ih, newSiteResource]
    · simp [importResourcesByNameLoop, h, ih]

/-- Before any match, the loop re-binds `d` at the first match. -/
theorem importResourcesByNameLoop_fresh (siteName : String) (sites : List ABPSiteResponse)
    (d : ResourceData) :
    importResourcesByNameLoop siteName sites (d, false, []) =
      match sites.filter fun s => decide (siteName = s.Name) with
      | [] => (d, false, [])
      | m :: ms => (d.SetId m.ID, true, ms.map fun s => newSiteResource s.ID) := by
  induction sites with
  | nil => simp [importResourcesByNameLoop]
  | cons s rest ih =>
    by_cases h : siteName = s.Name
    · simp [importResourcesByNameLoop, ← h, importResourcesByNameLoop_found]
    · simp [importResourcesByNameLoop, h, ih]

/-- Policy loop, after the first match. -/
theorem importABPPolicyResourcesByNameLoop_found (policyName : String)
    (policies : List ABPPolicyResponse) (d : ResourceData) (extra : List ResourceData) :
    importABPPolicyResourcesByNameLoop policyName policies (d, true, extra) =
      (d, true, extra ++
        ((policies.filter fun s => decide (policyName = s.Name)).map
          fun s => newPolicyResource s.ID)) := by
  induction policies generalizing extra with
  | nil => simp [importABPPolicyResourcesByNameLoop]
  | cons s rest ih =>
    by_cases h : policyName = s.Name
    · simp [importABPPolicyResourcesByNameLoop, ← h, ih, newPolicyResource]
    · simp [importABPPolicyResourcesByNameLoop, h, ih]

/-- Policy loop, before any match. -/
theorem importABPPolicyResourcesByNameLoop_fresh (policyName : String)
    (policies : List ABPPolicyResponse) (d : ResourceData) :
    importABPPolicyResourcesByNameLoop policyName policies (d, false, []) =
      match policies.filter fun s => decide (policyName = s.Name) with
      | [] => (d, false, [])
      | m :: ms => (d.SetId m.ID, true, ms.map fun s => newPolicyResource s.ID) := by
  induction policies with
  | nil => simp [importABPPolicyResourcesByNameLoop]
  | cons s rest ih =>
    by_cases h : policyName = s.Name
    · simp [importABPPolicyResourcesByNameLoop, ← h, importABPPolicyResourcesByNameLoop_found]
    · simp [importABPPolicyResourcesByNameLoop, h, ih]

/-- C3: when the listing holds at least one entity whose name equals the
imported name, import by name (Site and Policy) returns one resource per
matching entity, in listing order: the original resource re-bound to the first
matching id, then a new resource for each further matching id; the ids
returned are exactly the ids of the matching entities. -/
theorem C3_name_import_fan_out (d : ResourceData) (c : Client) (log : List Request) :
    (∀ (sites : List ABPSiteResponse) (m : ABPSiteResponse) (ms : List ABPSiteResponse),
      (c.GetABPSitesForAccountWithoutID log).1 = .ok sites →
      (sites.filter fun s => decide (d.id = s.Name)) = m :: ms →
      ∃ results, (importResourcesByName d c log).1 = .ok results ∧
        results = d.SetId m.ID :: ms.map (fun s => newSiteResource s.ID) ∧
        results.length = (sites.filter fun s => decide (d.id = s.Name)).length ∧
        results.map (fun r => r.id) =
          (sites.filter fun s => decide (d.id = s.Name)).map (fun s => s.ID)) ∧
    (∀ (policies : List ABPPolicyResponse) (m : ABPPolicyResponse)
        (ms : List ABPPolicyResponse),
      (c.GetABPPoliciesForAccountWithoutID log).1 = .ok policies →
      (policies.filter fun s => decide (d.id = s.Name)) = m :: ms →
      ∃ results, (importABPPolicyResourcesByName d c log).1 = .ok results ∧
        results = d.SetId m.ID :: ms.map (fun s => newPolicyResource s.ID) ∧
        results.length = (policies.filter fun s => decide (d.id = s.Name)).length ∧
        results.map (fun r => r.id) =
          (policies.filter fun s => decide (d.id = s.Name)).map (fun s => s.ID)) := by
  constructor
  · intro sites m ms hs hm
    refine ⟨_, ?_, rfl, ?_, ?_⟩
    · unfold importResourcesByName
      rcases hc : c.GetABPSitesForAccountWithoutID log with ⟨r, log1⟩
      rw [hc] at hs
      simp only at hs
      subst hs
      simp only [importResourcesByNameLoop_fresh, hm]
    · simp [hm]
    · simp [hm, ResourceData.SetId, newSiteResource, ResourceData.SetType, Function.comp_def]
  · intro policies m ms hs hm
    refine ⟨_, ?_, rfl, ?_, ?_⟩
    · unfold importABPPolicyResourcesByName
      rcases hc : c.GetABPPoliciesForAccountWithoutID log with ⟨r, log1⟩
      rw [hc] at hs
      simp only at hs
      subst hs
      simp only [importABPPolicyResourcesByNameLoop_fresh, hm]
    · simp [hm]
    · simp [hm, ResourceData.SetId, newPolicyResource, ResourceData.SetType, Function.comp_def]

/-- C3 (witness): entities named x, y, x and import name x give exactly two
resources, bound to the two x ids. -/
theorem C3_name_import_fan_out_witness :
    (∃ results, (importResourcesByName { id := "x" } (listingClient sitesXYX policiesXYX) []).1 =
        .ok results ∧
      results = [{ id := "1-1-1-1-1" }, newSiteResource "3-3-3-3-3"] ∧
      results.length = 2 ∧ results.map (fun r => r.id) = ["1-1-1-1-1", "3-3-3-3-3"]) ∧
    (∃ results,
      (importABPPolicyResourcesByName { id := "x" } (listingClient sitesXYX policiesXYX) []).1 =
        .ok results ∧
      results = [{ id := "4-4-4-4-4" }, newPolicyResource "6-6-6-6-6"] ∧
      results.length = 2 ∧ results.map (fun r => r.id) = ["4-4-4-4-4", "6-6-6-6-6"]) :=
  ⟨(C3_name_import_fan_out { id := "x" } (listingClient sitesXYX policiesXYX) []).1 sitesXYX
      { Name := "x", ID := "1-1-1-1-1" } [{ Name := "x", ID := "3-3-3-3-3" }] (by rfl) (by decide),
    (C3_name_import_fan_out { id := "x" } (listingClient sitesXYX policiesXYX) []).2 policiesXYX
      { Name := "x", ID := "4-4-4-4-4" } [{ Name := "x", ID := "6-6-6-6-6" }] (by rfl)
      (by decide)⟩

/-- C4 (counterexample): with sites and policies named x, y, x only, import by
name z returns no error: it returns the original resource, whose id is still
the name z. -/
theorem C4_name_import_miss_returns_resource :
    (importResourcesByName { id := "z" } (listingClient sitesXYX policiesXYX) []).1 =
      .ok [{ id := "z" }] ∧
    (importABPPolicyResourcesByName { id := "z" } (listingClient sitesXYX policiesXYX) []).1 =
      .ok [{ id := "z" }] := by
  constructor <;> rfl

/-- C4 (amended): when the listing is fetched and holds no entity whose name
equals the imported name, import by name (Site and Policy) returns no error
and exactly one resource, the original one unchanged, its id still the imported
name. -/
theorem C4_name_import_miss_returns_original (d : ResourceData) (c : Client)
    (log : List Request) :
    (∀ sites : List ABPSiteResponse,
      (c.GetABPSitesForAccountWithoutID log).1 = .ok sites →
      (sites.filter fun s => decide (d.id = s.Name)) = [] →
      (importResourcesByName d c log).1 = .ok [d]) ∧
    (∀ policies : List ABPPolicyResponse,
      (c.GetABPPoliciesForAccountWithoutID log).1 = .ok policies →
      (policies.filter fun s => decide (d.id = s.Name)) = [] →
      (importABPPolicyResourcesByName d c log).1 = .ok [d]) := by
  constructor
  · intro sites hs hm
    unfold importResourcesByName
    rcases hc : c.GetABPSitesForAccountWithoutID log with ⟨r, log1⟩
    rw [hc] at hs
    simp only at hs
    subst hs
    simp only [importResourcesByNameLoop_fresh, hm]
  · intro policies hs hm
    unfold importABPPolicyResourcesByName
    rcases hc : c.GetABPPoliciesForAccountWithoutID log with ⟨r, log1⟩
    rw [hc] at hs
    simp only at hs
    subst hs
    simp only [importABPPolicyResourcesByNameLoop_fresh, hm]

/-- C4 (witness): the amended statement at import name z against x, y, x. -/
theorem C4_name_import_miss_returns_original_witness :
    (importResourcesByName { id := "z" } (listingClient sitesXYX policiesXYX) []).1 =
      .ok [{ id := "z" }] ∧
    (importABPPolicyResourcesByName { id := "z" } (listingClient sitesXYX policiesXYX) []).1 =
      .ok [{ id := "z" }] :=
  ⟨(C4_name_import_miss_returns_original { id := "z" } (listingClient sitesXYX policiesXYX)
      []).1 sitesXYX (by rfl) (by decide),
    (C4_name_import_miss_returns_original { id := "z" } (listingClient sitesXYX policiesXYX)
      []).2 policiesXYX (by rfl) (by decide)⟩

/-! ### Requests issued by the client functions -/

/-- A string with five dash-segments is not empty. -/
theorem length_ne_zero_of_five_segments (s : String)
    (h : (stringsSplit s '-').length = 5) : s.length ≠ 0 := by
  intro h0
  have hd : s.data = [] := List.length_eq_zero.mp h0
  simp [stringsSplit, hd, splitChars] at h

/-- The root lookup issues exactly the root request. -/
theorem GetABPAccountID_log (c : Client) (log : List Request) :
    (c.GetABPAccountID log).2 = log ++ [c.rootRequest] := by
  unfold Client.GetABPAccountID Client.send Client.rootRequest
  simp only
  split
  · rfl
  · split
    · rfl
    · split <;> rfl

/-- C6 (counterexample): the Domain importer rejects the identifier
`my-domain` with an error and issues no request: it does not resolve it by
name. -/
theorem C6_domain_import_rejects_name :
    (stringsSplit "my-domain" '-').length ≠ 5 ∧
    resourceABPDomainImporterState { id := "my-domain" } (listingClient sitesXYX policiesXYX) [] =
      (.error "ABP domain ID my-domain not found, can't import", []) := by
  constructor
  · decide
  · rfl

/-- C6 (amended): the Domain importer accepts an identifier with exactly five
dash-segments as it is, returning the original resource without any request,
and rejects every other identifier with a not-found error, again without any
request. -/
theorem C6_domain_import_by_shape_only (d : ResourceData) (c : Client) (log : List Request) :
    ((stringsSplit d.id '-').length = 5 →
      resourceABPDomainImporterState d c log = (.ok [d], log)) ∧
    ((stringsSplit d.id '-').length ≠ 5 →
      resourceABPDomainImporterState d c log =
        (.error ("ABP domain ID " ++ d.id ++ " not found, can't import"), log)) := by
  constructor
  · intro h
    simp [resourceABPDomainImporterState, h]
  · intro h
    simp [resourceABPDomainImporterState, h]

/-- C6 (witness): identifiers `1-1-1-1-1` and `my-domain`. -/
theorem C6_domain_import_by_shape_only_witness :
    ((stringsSplit "1-1-1-1-1" '-').length = 5 ∧
      resourceABPDomainImporterState { id := "1-1-1-1-1" }
        (listingClient sitesXYX policiesXYX) [] = (.ok [{ id := "1-1-1-1-1" }], [])) ∧
    ((stringsSplit "my-domain" '-').length ≠ 5 ∧
      resourceABPDomainImporterState { id := "my-domain" }
        (listingClient sitesXYX policiesXYX) [] =
        (.error ("ABP domain ID " ++ "my-domain" ++ " not found, can't import"), [])) :=
  ⟨⟨by decide,
      (C6_domain_import_by_shape_only { id := "1-1-1-1-1" }
        (listingClient sitesXYX policiesXYX) []).1 (by decide)⟩,
    ⟨by decide,
      (C6_domain_import_by_shape_only { id := "my-domain" }
        (listingClient sitesXYX policiesXYX) []).2 (by decide)⟩⟩

/-- On failure the root lookup returns the empty account id. -/
theorem GetABPAccountID_error_id (c : Client) (log : List Request) (a e : String)
    (h : (c.GetABPAccountID log).1 = (a, some e)) : a = "" := by
  unfold Client.GetABPAccountID Client.send at h
  simp only at h
  split at h
  · simp only [Prod.mk.injEq] at h
    exact h.1.symm
  · split at h
    · simp only [Prod.mk.injEq] at h
      exact h.1.symm
    · split at h
      · simp only [Prod.mk.injEq] at h
        exact h.1.symm
      · simp at h

/-- C7 (evaluation of the code): `GetABPAccountWithoutID` tests the root
lookup's error the wrong way round. When the root lookup succeeds it returns
neither an account nor an error and fetches nothing; when the root lookup
fails it calls `GetABPAccount` with the empty id and returns that call's
empty-id error instead of the root lookup's failure. -/
theorem C7_GetABPAccountWithoutID_inverted (c : Client) (log : List Request) :
    (∀ a, (c.GetABPAccountID log).1 = (a, none) →
      c.GetABPAccountWithoutID log = ((none, none), log ++ [c.rootRequest])) ∧
    (∀ a e, (c.GetABPAccountID log).1 = (a, some e) →
      c.GetABPAccountWithoutID log =
        ((none, some "Cant' fetch empty account ID"), log ++ [c.rootRequest])) := by
  have hl := GetABPAccountID_log c log
  constructor
  · intro a h
    unfold Client.GetABPAccountWithoutID
    rcases hc : c.GetABPAccountID log with ⟨⟨ID, err⟩, log1⟩
    rw [hc] at h hl
    simp only [Prod.mk.injEq] at h hl
    obtain ⟨-, rfl⟩ := h
    subst hl
    simp
  · intro a e h
    have ha := GetABPAccountID_error_id c log a e h
    unfold Client.GetABPAccountWithoutID
    rcases hc : c.GetABPAccountID log with ⟨⟨ID, err⟩, log1⟩
    rw [hc] at h hl
    simp only [Prod.mk.injEq] at h hl
    obtain ⟨rfl, rfl⟩ := h
    subst hl
    subst ha
    simp [Client.GetABPAccount, toGoPair]

/-- C7 (witness): a remote whose root lookup succeeds, and one whose transport
fails. -/
theorem C7_GetABPAccountWithoutID_inverted_witness :
    (listingClient sitesXYX policiesXYX).GetABPAccountWithoutID [] =
      ((none, none), [] ++ [(listingClient sitesXYX policiesXYX).rootRequest]) ∧
    failingClient.GetABPAccountWithoutID [] =
      ((none, some "Cant' fetch empty account ID"), [] ++ [failingClient.rootRequest]) :=
  ⟨(C7_GetABPAccountWithoutID_inverted (listingClient sitesXYX policiesXYX) []).1 "acc-1"
      (by rfl),
    (C7_GetABPAccountWithoutID_inverted failingClient []).2 ""
      "Error from ABP API when reading root API" (by rfl)⟩

/-- The body handed to `createABPSite` carries the declared name and an empty
selector list, whatever selectors were declared. -/
theorem resourceABPSiteCreateBody_ok (d : ResourceData) (body : ABPCreateSite)
    (h : resourceABPSiteCreateBody d = .ok body) :
    body.Name = d.name ∧ body.Selectors = some [] := by
  unfold resourceABPSiteCreateBody fillABPSiteData at h
  cases hs : fillABPSiteSelectors d.selectors none with
  | error e => simp [hs] at h
  | ok sels =>
    simp only [hs, Except.ok.injEq] at h
    subst h
    exact ⟨rfl, rfl⟩

/-- C8 (counterexample): create of `S1` with the selector `path_prefix` `/a`,
rate limiting `100`, against the echoing stub. The POST carries the body with
an empty selector list, the site fetched again has no selectors, and decoding
them gives nil, not one `path_prefix` `/a` selector. -/
theorem C8_create_submits_no_selectors :
    resourceABPSiteCreate storingSdk declaredS1 echoClient [] =
      .ok (({ declaredS1 with id := "9-9-9-9-9", account_id := "acc-1" }, none),
        [echoClient.rootRequest, echoClient.createSiteRequest "acc-1" "i",
          echoClient.siteRequest "9-9-9-9-9"]) ∧
    echoClient.marshalCreateSite { Name := "S1", Selectors := some [] } = .ok "i" ∧
    (echoClient.GetABPSite "9-9-9-9-9"
      [echoClient.rootRequest, echoClient.createSiteRequest "acc-1" "i"]).1 =
      .ok { Name := "S1", Selectors := some [], ID := "9-9-9-9-9", AccountID := "acc-1" } ∧
    getSelectorsList (some ([] : List ABPSiteSelector)) = none := by
  refine ⟨?_, ?_, ?_, ?_⟩ <;> rfl

/-- C8 (amended): create submits the declared name with an empty selector
list. Against a remote that answers the POST with status 201 and an assigned
five-segment id, and the following fetch of that id with status 200 and the
submitted body plus id and account id, create returns no error, leaves the
resource bound to the assigned id with the name, account id and MX hostname of
the response, and leaves its declared selectors untouched; the selector list
fetched again is empty and decodes to nil. -/
theorem C8_create_then_read_empty_selectors (sdk : Sdk) (d : ResourceData) (c : Client)
    (log log1 : List Request) (body : ABPCreateSite) (acc js b1 b2 id : String)
    (posted : ABPSiteResponse)
    (hfill : resourceABPSiteCreateBody d = .ok body)
    (hroot : c.GetABPAccountID log = ((acc, none), log1))
    (hmar : c.marshalCreateSite body = .ok js)
    (hpost : c.DoJsonRequestWithHeaders log1 (c.createSiteRequest acc js) = .ok ⟨201, b1⟩)
    (hparse1 : c.unmarshalSite b1 = .ok posted)
    (hpid : posted.ID = id)
    (hid : (stringsSplit id '-').length = 5)
    (hget : c.DoJsonRequestWithHeaders (log1 ++ [c.createSiteRequest acc js])
      (c.siteRequest id) = .ok ⟨200, b2⟩)
    (hparse2 : c.unmarshalSite b2 = .ok { toABPCreateSite := body, ID := id, AccountID := acc }) :
    body.Name = d.name ∧ body.Selectors = some [] ∧
    getSelectorsList body.Selectors = none ∧
    resourceABPSiteCreate sdk d c log =
      .ok (({ d with id := id, name := d.name, account_id := acc,
                     mx_hostname_id := body.MxHostnameID }, none),
        log1 ++ [c.createSiteRequest acc js, c.siteRequest id]) := by
  obtain ⟨hname, hsel⟩ := resourceABPSiteCreateBody_ok d body hfill
  have hne : id.length ≠ 0 := length_ne_zero_of_five_segments id hid
  refine ⟨hname, hsel, ?_, ?_⟩
  · rw [hsel]
    rfl
  · have hcreate : c.createABPSite body log =
        (.ok posted, log1 ++ [c.createSiteRequest acc js]) := by
      unfold Client.createABPSite Client.send
      simp only [hroot, hmar]
      unfold Client.createSiteRequest at hpost
      simp [hpost, hparse1, Client.createSiteRequest]
    have hfetch : c.GetABPSite id (log1 ++ [c.createSiteRequest acc js]) =
        (.ok { toABPCreateSite := body, ID := id, AccountID := acc },
          log1 ++ [c.createSiteRequest acc js] ++ [c.siteRequest id]) := by
      unfold Client.GetABPSite Client.send
      unfold Client.siteRequest at hget
      simp [hne, hget, hparse2, Client.siteRequest]
    unfold resourceABPSiteCreate
    simp only [hfill, hcreate, hpid]
    unfold resourceABPSiteRead
    simp only [ResourceData.SetId, hid, ne_eq, not_true_eq_false, if_false, hfetch]
    simp [hsel, Slice.len, Slice.toList, hname]

/-- C8 (witness): the amended statement at the echoing stub and `S1`. -/
theorem C8_create_then_read_empty_selectors_witness :
    resourceABPSiteCreate storingSdk declaredS1 echoClient [] =
      .ok (({ declaredS1 with id := "9-9-9-9-9", name := "S1", account_id := "acc-1",
                              mx_hostname_id := none }, none),
        [echoClient.rootRequest] ++
          [echoClient.createSiteRequest "acc-1" "i", echoClient.siteRequest "9-9-9-9-9"]) :=
  (C8_create_then_read_empty_selectors storingSdk declaredS1 echoClient []
    [echoClient.rootRequest] { Name := "S1", Selectors := some [] } "acc-1" "i" "i" "i"
    "9-9-9-9-9" { Name := "S1", Selectors := some [], ID := "9-9-9-9-9", AccountID := "acc-1" }
    (by rfl) (by rfl) (by rfl) (by rfl) (by rfl) (by rfl) (by decide) (by rfl) (by rfl)).2.2.2

/-- The local MX hostname `compareSiteToSchemaResource` compares: the declared
value, the empty string when it is absent. -/
theorem GetOkMxHostnameID_value (d : ResourceData) :
    (if d.GetOkMxHostnameID.2 then d.GetOkMxHostnameID.1 else "") = d.mx_hostname_id.getD "" := by
  unfold ResourceData.GetOkMxHostnameID
  cases h : d.mx_hostname_id with
  | none => simp
  | some s =>
    by_cases hs : s = ""
    · simp [hs]
    · simp [hs]

/-- The assertion loop returns the list as it is, or panics when the list
holds a nil element. -/
theorem assertSelectorMaps_eq (l : List (Option SelectorMap)) :
    assertSelectorMaps l =
      if none ∈ l then
        .error "interface conversion: interface {} is nil, not map[string]interface {}"
      else .ok l := by
  induction l with
  | nil => rfl
  | cons a rest ih =>
    cases a with
    | none => simp [assertSelectorMaps]
    | some m =>
      unfold assertSelectorMaps
      rw [ih]
      by_cases h : none ∈ rest
      · simp [h]
      · simp [h]

/-- What `compareSiteToSchemaResource` computes: a panic when the declared
list holds a nil element, otherwise the conjunction of the four tests. -/
theorem compareSiteToSchemaResource_eq (d : ResourceData) (site : ABPSiteResponse) :
    compareSiteToSchemaResource d site =
      if none ∈ d.selectors then
        .error "interface conversion: interface {} is nil, not map[string]interface {}"
      else
        .ok (decide (d.name = site.Name ∧
          d.mx_hostname_id.getD "" = site.MxHostnameID.getD "" ∧
          d.selectors.length = site.Selectors.len ∧
          getSelectorsList site.Selectors = some d.selectors)) := by
  have hmx := GetOkMxHostnameID_value d
  have hsite : (match site.MxHostnameID with
      | some v => v
      | none => "") = site.MxHostnameID.getD "" := by
    cases site.MxHostnameID <;> rfl
  unfold compareSiteToSchemaResource compareSelectorsToSchemaResource
  simp only [hsite, assertSelectorMaps_eq]
  rcases hg : d.GetOkMxHostnameID with ⟨v, ok⟩
  rw [hg] at hmx
  simp only at hmx
  by_cases hn : none ∈ d.selectors
  · simp only [hn, if_true]
  · have hsome : Slice.toList (some d.selectors) = d.selectors := rfl
    simp only [hn, if_false, hmx, Slice.len, hsome]
    by_cases h1 : d.name = site.Name
    · by_cases h2 : d.mx_hostname_id.getD "" = site.MxHostnameID.getD ""
      · by_cases h3 : d.selectors.length = site.Selectors.toList.length
        · simp [h1, h2, h3]
        · simp [h1, h2, h3]
      · simp [h1, h2]
    · simp [h1]

/-- A declared list holding one nil element, against a remote site of the same
name with one selector: `compareSiteToSchemaResource` panics. -/
theorem compareSiteToSchemaResource_nil_element :
    compareSiteToSchemaResource { name := "n", selectors := [none] }
        { Name := "n", Selectors := some [noCriteriaSelector] } =
      .error "interface conversion: interface {} is nil, not map[string]interface {}" := by
  rfl

/-- C9 (counterexample): a declared site without MX hostname compares as
equivalent to a remote site whose MX hostname is present and empty. -/
theorem C9_absent_mx_equals_remote_empty :
    localNoMx.mx_hostname_id = none ∧ siteEmptyMx.MxHostnameID = some "" ∧
    compareSiteToSchemaResource localNoMx siteEmptyMx = .ok true := by
  refine ⟨rfl, rfl, ?_⟩
  rfl

/-- C9 (amended): `compareSiteToSchemaResource` panics exactly when the
declared selector list holds a nil element, and returns a result otherwise. It
answers true exactly when the list holds no nil element, the names are equal,
the MX hostnames are equal after an absent value is read as the empty string on
either side, the selector lists have the same length and the decoded remote
selectors equal the declared ones. So a locally absent MX hostname equals a
remote absent one and equally a remote empty string: the outcome is the same
for a remote MX hostname that is absent and one that is present and empty. -/
theorem C9_compareSite_scalars (d : ResourceData) (site : ABPSiteResponse) :
    (compareSiteToSchemaResource d site = .ok true ↔
      none ∉ d.selectors ∧
      d.name = site.Name ∧
      d.mx_hostname_id.getD "" = site.MxHostnameID.getD "" ∧
      d.selectors.length = site.Selectors.len ∧
      getSelectorsList site.Selectors = some d.selectors) ∧
    ((∃ p, compareSiteToSchemaResource d site = .error p) ↔ none ∈ d.selectors) ∧
    ((∃ b, compareSiteToSchemaResource d site = .ok b) ↔ none ∉ d.selectors) ∧
    compareSiteToSchemaResource d { site with MxHostnameID := some "" } =
      compareSiteToSchemaResource d { site with MxHostnameID := none } := by
  refine ⟨?_, ?_, ?_, ?_⟩
  · rw [compareSiteToSchemaResource_eq]
    by_cases hn : none ∈ d.selectors
    · simp [hn]
    · simp [hn]
  · rw [compareSiteToSchemaResource_eq]
    by_cases hn : none ∈ d.selectors
    · simp [hn]
    · simp [hn]
  · rw [compareSiteToSchemaResource_eq]
    by_cases hn : none ∈ d.selectors
    · simp [hn]
    · simp [hn]
  · rw [compareSiteToSchemaResource_eq, compareSiteToSchemaResource_eq]
    simp

/-- C10: selector comparison is order-sensitive. For a remote list whose
selectors each have exactly one criteria field and a reordering of it whose
decoded list differs from the decoded list of the original, the original
compares as not equivalent to the decoded reordering; and lists of different
length always compare as not equivalent. -/
theorem C10_selector_comparison_order_sensitive :
    (∀ R R2 : Slice ABPSiteSelector,
      R2.toList.Perm R.toList →
      (∀ s ∈ R.toList, s.Criteria.setCount = 1) →
      getSelectorsList R2 ≠ getSelectorsList R →
      compareSelectorsToSchemaResource R (getSelectorsList R2) = false) ∧
    (∀ (A : Slice ABPSiteSelector) (B : Slice (Option SelectorMap)),
      A.len ≠ B.len → compareSelectorsToSchemaResource A B = false) := by
  constructor
  · intro R R2 _ _ hdiff
    unfold compareSelectorsToSchemaResource
    split
    · rfl
    · exact decide_eq_false (fun h => hdiff h.symm)
  · intro A B h
    simp [compareSelectorsToSchemaResource, h]

/-- C10 (witness): `/a`, `/b` against its reordering `/b`, `/a`, and a list of
one selector against a decoded list of two. -/
theorem C10_selector_comparison_order_sensitive_witness :
    compareSelectorsToSchemaResource
      (some [prefixSelector "/a" "1", prefixSelector "/b" "1"])
      (getSelectorsList (some [prefixSelector "/b" "1", prefixSelector "/a" "1"])) = false ∧
    compareSelectorsToSchemaResource (some [prefixSelector "/a" "1"])
      (getSelectorsList (some [prefixSelector "/b" "1", prefixSelector "/a" "1"])) = false :=
  ⟨C10_selector_comparison_order_sensitive.1
      (some [prefixSelector "/a" "1", prefixSelector "/b" "1"])
      (some [prefixSelector "/b" "1", prefixSelector "/a" "1"])
      (List.Perm.swap _ _ _) (by decide) (by decide),
    C10_selector_comparison_order_sensitive.2 (some [prefixSelector "/a" "1"])
      (getSelectorsList (some [prefixSelector "/b" "1", prefixSelector "/a" "1"]))
      (by decide)⟩

/-- C11: the fetch by id of an account, a domain, a policy and a site, called
with the empty id, returns an error and leaves the request history as it was:
nothing is sent. -/
theorem C11_empty_id_fails_fast (c : Client) (log : List Request) :
    c.GetABPAccount "" log = (.error "Cant' fetch empty account ID", log) ∧
    c.GetABPDomain "" log = (.error "can't fetch empty domain ID", log) ∧
    c.GetABPPolicy "" log = (.error "can't fetch empty policy ID", log) ∧
    c.GetABPSite "" log = (.error "Cant' fetch empty site ID", log) := by
  refine ⟨?_, ?_, ?_, ?_⟩ <;> rfl

/-- C12: once the POST of `createABPSite`, `createABPPolicy` or
`createABPDomain` is answered, the call succeeds only on status 201. With any
other status (200 included) it returns no entity and an error whose message
carries the status code and the raw response body; with status 201 and a body
that parses it returns the parsed entity. -/
theorem C12_create_succeeds_only_on_201 (c : Client) (log log1 : List Request)
    (acc js : String) (resp : Response)
    (hroot : c.GetABPAccountID log = ((acc, none), log1)) :
    (∀ val : ABPCreateSite, c.marshalCreateSite val = .ok js →
      c.DoJsonRequestWithHeaders log1 (c.createSiteRequest acc js) = .ok resp →
      (resp.StatusCode ≠ 201 →
        c.createABPSite val log =
          (.error ("Error status code " ++ toString resp.StatusCode ++
            " from ABP API when creating site under account ID " ++ acc ++ ": " ++
            resp.Body ++ "\n"), log1 ++ [c.createSiteRequest acc js])) ∧
      (resp.StatusCode = 201 → ∀ e, c.unmarshalSite resp.Body = .ok e →
        c.createABPSite val log = (.ok e, log1 ++ [c.createSiteRequest acc js]))) ∧
    (∀ val : ABPCreateUpdatePolicy, c.marshalPolicy val = .ok js →
      c.DoJsonRequestWithHeaders log1 (c.createPolicyRequest acc js) = .ok resp →
      (resp.StatusCode ≠ 201 →
        c.createABPPolicy val log =
          (.error ("Error status code " ++ toString resp.StatusCode ++
            " from ABP API when creating policy under account ID " ++ acc ++ ": " ++
            resp.Body ++ "\n"), log1 ++ [c.createPolicyRequest acc js])) ∧
      (resp.StatusCode = 201 → ∀ e, c.unmarshalPolicy resp.Body = .ok e →
        c.createABPPolicy val log = (.ok e, log1 ++ [c.createPolicyRequest acc js]))) ∧
    (∀ val : ABPCreateDomain, c.marshalCreateDomain val = .ok js →
      c.DoJsonRequestWithHeaders log1 (c.createDomainRequest acc js) = .ok resp →
      (resp.StatusCode ≠ 201 →
        c.createABPDomain val log =
          (.error ("Error status code " ++ toString resp.StatusCode ++
            " from ABP API when creating domain under account ID " ++ acc ++ ": " ++
            resp.Body ++ "\n"), log1 ++ [c.createDomainRequest acc js])) ∧
      (resp.StatusCode = 201 → ∀ e, c.unmarshalDomain resp.Body = .ok e →
        c.createABPDomain val log = (.ok e, log1 ++ [c.createDomainRequest acc js]))) := by
  refine ⟨?_, ?_, ?_⟩
  · intro val hmar hpost
    unfold Client.createSiteRequest at hpost
    constructor
    · intro hst
      unfold Client.createABPSite Client.send
      simp [hroot, hmar, hpost, hst, Client.createSiteRequest]
    · intro hst e he
      unfold Client.createABPSite Client.send
      simp [hroot, hmar, hpost, hst, he, Client.createSiteRequest]
  · intro val hmar hpost
    unfold Client.createPolicyRequest at hpost
    constructor
    · intro hst
      unfold Client.createABPPolicy Client.send
      simp [hroot, hmar, hpost, hst, Client.createPolicyRequest]
    · intro hst e he
      unfold Client.createABPPolicy Client.send
      simp [hroot, hmar, hpost, hst, he, Client.createPolicyRequest]
  · intro val hmar hpost
    unfold Client.createDomainRequest at hpost
    constructor
    · intro hst
      unfold Client.createABPDomain Client.send
      simp [hroot, hmar, hpost, hst, Client.createDomainRequest]
    · intro hst e he
      unfold Client.createABPDomain Client.send
      simp [hroot, hmar, hpost, hst, he, Client.createDomainRequest]

/-- C12 (witness): a POST answered 200 makes `createABPSite` fail with the
status and the raw body in the message; a POST answered 201 makes
`createABPPolicy` return the parsed policy. -/
theorem C12_create_succeeds_only_on_201_witness :
    (stubClient 200 siteNoSelectors policyOneDirective).createABPSite {} [] =
      (.error ("Error status code " ++ toString (200 : Int) ++
        " from ABP API when creating site under account ID " ++ "acc-1" ++ ": " ++
        "raw body" ++ "\n"),
        [(stubClient 200 siteNoSelectors policyOneDirective).rootRequest] ++
          [(stubClient 200 siteNoSelectors policyOneDirective).createSiteRequest "acc-1"
            "site json"]) ∧
    (stubClient 201 siteNoSelectors policyOneDirective).createABPPolicy {} [] =
      (.ok policyOneDirective,
        [(stubClient 201 siteNoSelectors policyOneDirective).rootRequest] ++
          [(stubClient 201 siteNoSelectors policyOneDirective).createPolicyRequest "acc-1"
            "policy json"]) :=
  ⟨((C12_create_succeeds_only_on_201 (stubClient 200 siteNoSelectors policyOneDirective) []
      [(stubClient 200 siteNoSelectors policyOneDirective).rootRequest] "acc-1" "site json"
      ⟨200, "raw body"⟩ (by rfl)).1 {} (by rfl) (by rfl)).1 (by decide),
    ((C12_create_succeeds_only_on_201 (stubClient 201 siteNoSelectors policyOneDirective) []
      [(stubClient 201 siteNoSelectors policyOneDirective).rootRequest] "acc-1" "policy json"
      ⟨201, "raw body"⟩ (by rfl)).2.1 {} (by rfl) (by rfl)).2 (by decide) policyOneDirective
      (by rfl)⟩

/-- C13: `resourceABPSiteDelete` issues exactly one request, the DELETE of the
bound site id. It returns success exactly when the transport answers with
status 200; a transport failure is an error, and every other status is an
error that names the status. -/
theorem C13_site_delete_one_request (d : ResourceData) (c : Client) (log : List Request) :
    (resourceABPSiteDelete d c log).2 = log ++ [c.deleteSiteRequest d.id] ∧
    (c.deleteSiteRequest d.id).method = MethodDelete ∧
    ((resourceABPSiteDelete d c log).1 = none ↔
      ∃ body, c.DoJsonRequestWithHeaders log (c.deleteSiteRequest d.id) = .ok ⟨200, body⟩) ∧
    (∀ resp, c.DoJsonRequestWithHeaders log (c.deleteSiteRequest d.id) = .ok resp →
      resp.StatusCode ≠ 200 →
      (resourceABPSiteDelete d c log).1 =
        some ("error status code " ++ toString resp.StatusCode ++
          " from CSP API when deleting site ID " ++ d.id)) ∧
    (∀ e, c.DoJsonRequestWithHeaders log (c.deleteSiteRequest d.id) = .error e →
      (resourceABPSiteDelete d c log).1 =
        some ("error from ABP API while deleting site ID " ++ d.id ++ ": " ++ e)) := by
  unfold resourceABPSiteDelete Client.deleteABPSite Client.send Client.deleteSiteRequest
  refine ⟨?_, rfl, ?_, ?_, ?_⟩
  · simp only
    split
    · rfl
    · split <;> rfl
  · simp only
    cases h : c.DoJsonRequestWithHeaders log
        ⟨MethodDelete, c.BaseURLAPI ++ ABPSiteAPIPath ++ "/" ++ d.id, none,
          .DeleteABPSite⟩ with
    | error e => simp
    | ok resp =>
      obtain ⟨st, body⟩ := resp
      by_cases hst : st = 200
      · simp [hst]
      · simp [hst]
  · intro resp h hst
    simp [h, hst]
  · intro e h
    simp [h]

/-- C13 (witness): a DELETE answered 500 is an error, after one request. -/
theorem C13_site_delete_one_request_witness :
    (resourceABPSiteDelete { id := "9-9-9-9-9" }
      (stubClient 500 siteNoSelectors policyOneDirective) []).1 =
      some ("error status code " ++ toString (500 : Int) ++
        " from CSP API when deleting site ID " ++ "9-9-9-9-9") ∧
    (resourceABPSiteDelete { id := "9-9-9-9-9" }
      failingClient []).1 =
      some ("error from ABP API while deleting site ID " ++ "9-9-9-9-9" ++ ": " ++
        "connection refused") :=
  ⟨(C13_site_delete_one_request { id := "9-9-9-9-9" }
      (stubClient 500 siteNoSelectors policyOneDirective) []).2.2.2.1 ⟨500, "raw body"⟩
      (by rfl) (by decide),
    (C13_site_delete_one_request { id := "9-9-9-9-9" } failingClient []).2.2.2.2
      "connection refused" (by rfl)⟩

/-- C14 (evaluation of the code): the Delete callback `resourceABPAccount`
registers is `resourceCSPSiteDomainDelete`, the delete of another resource that
these sources do not define, so running it is running that function. The no-op
`resourceABPAccountDelete`, which returns success, issues nothing and leaves the
data alone, is defined and not registered. -/
theorem C14_account_delete_registers_csp_callback :
    resourceABPAccount.Delete = some Callback.resourceCSPSiteDomainDelete ∧
    resourceABPAccount.Delete ≠ some Callback.resourceABPAccountDelete ∧
    (∀ sdk cspDelete,
      Callback.run sdk cspDelete Callback.resourceCSPSiteDomainDelete = cspDelete) ∧
    (∀ d c log, resourceABPAccountDelete d c log = ((d, none), log)) := by
  refine ⟨rfl, by decide, ?_, ?_⟩
  · intro sdk cspDelete
    rfl
  · intro d c log
    rfl

/-- Fetching an account issues nothing (empty id) or exactly the fetch request. -/
theorem GetABPAccount_log (c : Client) (accountID : String) (log : List Request) :
    (c.GetABPAccount accountID log).2 = log ∨
    (c.GetABPAccount accountID log).2 = log ++ [c.accountRequest accountID] := by
  unfold Client.GetABPAccount Client.send Client.accountRequest
  by_cases h : accountID.length = 0
  · left
    simp only [h, if_true]
  · right
    simp only [h, if_false]
    split
    · rfl
    · split
      · rfl
      · split <;> rfl

/-- What `resourceABPAccountRead` does with the result of the fetch. -/
theorem resourceABPAccountRead_eq (sdk : Sdk) (d : ResourceData) (c : Client)
    (log : List Request) :
    resourceABPAccountRead sdk d c log =
      (match (c.GetABPAccount d.id log).1 with
        | .error err =>
          (d.SetId "", some ("[ERROR] Could not read ABP account " ++ d.id ++ ": " ++ err))
        | .ok r =>
          (({ d with my_account_id := sdk.SetMyAccountID d r.MYAccountID,
                     name := r.Name } : ResourceData).SetId r.ID, none),
        (c.GetABPAccount d.id log).2) := by
  unfold resourceABPAccountRead
  dsimp only
  rcases c.GetABPAccount d.id log with ⟨r, log1⟩
  cases r <;> rfl

/-- C15 (counterexample): against a remote whose transport fails,
`resourceABPAccountUpdate` on the bound id `7-7-7-7-7` issues the account fetch,
returns an error and clears the id. -/
theorem C15_account_update_can_fail :
    resourceABPAccountUpdate storingSdk { id := "7-7-7-7-7" } failingClient [] =
      (({ id := "" },
        some "[ERROR] Could not read ABP account 7-7-7-7-7: Error from ABP API when reading account ID 7-7-7-7-7"),
        [failingClient.accountRequest "7-7-7-7-7"]) := by
  rfl

/-- C15 (amended): `resourceABPAccountUpdate` sends no update; it is
`resourceABPAccountRead`. It issues nothing but the fetch of the account by the
bound id (nothing at all for the empty id); when that fetch fails it returns
the Read error and clears the bound id, when it succeeds it returns success
and binds the id of the response. -/
theorem C15_account_update_is_read (sdk : Sdk) (d : ResourceData) (c : Client)
    (log : List Request) :
    resourceABPAccountUpdate sdk d c log = resourceABPAccountRead sdk d c log ∧
    ((resourceABPAccountUpdate sdk d c log).2 = log ∨
      (resourceABPAccountUpdate sdk d c log).2 = log ++ [c.accountRequest d.id]) ∧
    (∀ e, (c.GetABPAccount d.id log).1 = .error e →
      (resourceABPAccountUpdate sdk d c log).1 =
        (d.SetId "", some ("[ERROR] Could not read ABP account " ++ d.id ++ ": " ++ e))) ∧
    (∀ r, (c.GetABPAccount d.id log).1 = .ok r →
      (resourceABPAccountUpdate sdk d c log).1.2 = none ∧
      (resourceABPAccountUpdate sdk d c log).1.1.id = r.ID ∧
      (resourceABPAccountUpdate sdk d c log).1.1.name = r.Name) := by
  unfold resourceABPAccountUpdate
  rw [resourceABPAccountRead_eq]
  refine ⟨rfl, GetABPAccount_log c d.id log, ?_, ?_⟩
  · intro e h
    simp only [h]
  · intro r h
    simp [h, ResourceData.SetId]

/-- C15 (witness): a failing fetch and a successful one. -/
theorem C15_account_update_is_read_witness :
    (resourceABPAccountUpdate storingSdk { id := "7-7-7-7-7" } failingClient []).1 =
      (ResourceData.SetId { id := "7-7-7-7-7" } "",
        some ("[ERROR] Could not read ABP account " ++ "7-7-7-7-7" ++ ": " ++
          "Error from ABP API when reading account ID 7-7-7-7-7")) ∧
    (resourceABPAccountUpdate storingSdk { id := "7-7-7-7-7" }
      (stubClient 200 siteNoSelectors policyOneDirective) []).1.2 = none :=
  ⟨(C15_account_update_is_read storingSdk { id := "7-7-7-7-7" } failingClient []).2.2.1
      "Error from ABP API when reading account ID 7-7-7-7-7" (by rfl),
    ((C15_account_update_is_read storingSdk { id := "7-7-7-7-7" }
      (stubClient 200 siteNoSelectors policyOneDirective) []).2.2.2
      { Name := "main", ID := "7-7-7-7-7", MYAccountID := "42" } (by rfl)).1⟩

/-! ### When a fetch by id succeeds -/

/-- `GetABPAccount` succeeds exactly when the id is not empty, the transport
answers with status 200 and the body decodes. -/
theorem GetABPAccount_ok_iff (c : Client) (id : String) (log : List Request)
    (r : ABPAccountResponse) :
    (c.GetABPAccount id log).1 = .ok r ↔
      id.length ≠ 0 ∧ ∃ resp, c.DoJsonRequestWithHeaders log (c.accountRequest id) = .ok resp ∧
        resp.StatusCode = 200 ∧ c.unmarshalAccount resp.Body = .ok r := by
  unfold Client.GetABPAccount Client.send Client.accountRequest
  by_cases h : id.length = 0
  · simp [h]
  · simp only [h, if_false, ne_eq, not_false_eq_true, true_and]
    cases ht : c.DoJsonRequestWithHeaders log
        ⟨MethodGet, c.BaseURLAPI ++ ABPAccountAPIPath ++ "/" ++ id, none, .ReadABPAccount⟩ with
    | error e => simp
    | ok resp =>
      by_cases hs : resp.StatusCode = 200
      · cases hu : c.unmarshalAccount resp.Body <;> simp [hs, hu]
      · simp [hs]

/-- `GetABPDomain` succeeds exactly when the id is not empty, the transport
answers with status 200 and the body decodes. -/
theorem GetABPDomain_ok_iff (c : Client) (id : String) (log : List Request)
    (r : ABPDomainResponse) :
    (c.GetABPDomain id log).1 = .ok r ↔
      id.length ≠ 0 ∧ ∃ resp, c.DoJsonRequestWithHeaders log (c.domainRequest id) = .ok resp ∧
        resp.StatusCode = 200 ∧ c.unmarshalDomain resp.Body = .ok r := by
  unfold Client.GetABPDomain Client.send Client.domainRequest
  by_cases h : id.length = 0
  · simp [h]
  · simp only [h, if_false, ne_eq, not_false_eq_true, true_and]
    cases ht : c.DoJsonRequestWithHeaders log
        ⟨MethodGet, c.BaseURLAPI ++ ABPDomainAPIPath ++ "/" ++ id, none, .ReadABPDomain⟩ with
    | error e => simp
    | ok resp =>
      by_cases hs : resp.StatusCode = 200
      · cases hu : c.unmarshalDomain resp.Body <;> simp [hs, hu]
      · simp [hs]

/-- `GetABPPolicy` succeeds exactly when the id is not empty, the transport
answers with status 200 and the body decodes. -/
theorem GetABPPolicy_ok_iff (c : Client) (id : String) (log : List Request)
    (r : ABPPolicyResponse) :
    (c.GetABPPolicy id log).1 = .ok r ↔
      id.length ≠ 0 ∧ ∃ resp, c.DoJsonRequestWithHeaders log (c.policyRequest id) = .ok resp ∧
        resp.StatusCode = 200 ∧ c.unmarshalPolicy resp.Body = .ok r := by
  unfold Client.GetABPPolicy Client.send Client.policyRequest
  by_cases h : id.length = 0
  · simp [h]
  · simp only [h, if_false, ne_eq, not_false_eq_true, true_and]
    cases ht : c.DoJsonRequestWithHeaders log
        ⟨MethodGet, c.BaseURLAPI ++ ABPPolicyAPIPath ++ "/" ++ id, none, .ReadABPPolicy⟩ with
    | error e => simp
    | ok resp =>
      by_cases hs : resp.StatusCode = 200
      · cases hu : c.unmarshalPolicy resp.Body <;> simp [hs, hu]
      · simp [hs]

/-- `GetABPSite` succeeds exactly when the id is not empty, the transport
answers with status 200 and the body decodes. -/
theorem GetABPSite_ok_iff (c : Client) (id : String) (log : List Request)
    (r : ABPSiteResponse) :
    (c.GetABPSite id log).1 = .ok r ↔
      id.length ≠ 0 ∧ ∃ resp, c.DoJsonRequestWithHeaders log (c.siteRequest id) = .ok resp ∧
        resp.StatusCode = 200 ∧ c.unmarshalSite resp.Body = .ok r := by
  unfold Client.GetABPSite Client.send Client.siteRequest
  by_cases h : id.length = 0
  · simp [h]
  · simp only [h, if_false, ne_eq, not_false_eq_true, true_and]
    cases ht : c.DoJsonRequestWithHeaders log
        ⟨MethodGet, c.BaseURLAPI ++ ABPSiteAPIPath ++ "/" ++ id, none, .ReadABPSite⟩ with
    | error e => simp
    | ok resp =>
      by_cases hs : resp.StatusCode = 200
      · cases hu : c.unmarshalSite resp.Body <;> simp [hs, hu]
      · simp [hs]

/-- C16: in the Read of an account, a domain, a policy and a site, a failed
fetch by the bound id clears the id and returns an error, and a successful
fetch sets the id to the id of the response. The Read of a policy and of a
site makes the fetch only for an id of five dash-segments, and clears the id
with an error otherwise. A fetch succeeds exactly when the id is not empty,
the transport answers, the status is 200 and the body decodes; it fails on a
transport failure, on any other status and on an undecodable body. -/
theorem C16_read_failure_unbinds (sdk : Sdk) (d : ResourceData) (c : Client)
    (log : List Request) :
    ((∀ e, (c.GetABPAccount d.id log).1 = .error e →
        (resourceABPAccountRead sdk d c log).1.1.id = "" ∧
        (resourceABPAccountRead sdk d c log).1.2 =
          some ("[ERROR] Could not read ABP account " ++ d.id ++ ": " ++ e)) ∧
      (∀ r, (c.GetABPAccount d.id log).1 = .ok r →
        (resourceABPAccountRead sdk d c log).1.1.id = r.ID ∧
        (resourceABPAccountRead sdk d c log).1.2 = none)) ∧
    ((∀ e, (c.GetABPDomain d.id log).1 = .error e →
        (resourceABPDomainRead sdk d c log).1.1.id = "" ∧
        (resourceABPDomainRead sdk d c log).1.2 =
          some ("error reading ABP policy ID " ++ d.id ++ ": " ++ e)) ∧
      (∀ r, (c.GetABPDomain d.id log).1 = .ok r →
        (resourceABPDomainRead sdk d c log).1.1.id = r.ID ∧
        (resourceABPDomainRead sdk d c log).1.2 = none)) ∧
    ((∀ e, (c.GetABPPolicy d.id log).1 = .error e →
        (resourceABPPolicyRead sdk d c log).1.1.id = "" ∧
        ∃ msg, (resourceABPPolicyRead sdk d c log).1.2 = .ok (some msg)) ∧
      (∀ r, (stringsSplit d.id '-').length = 5 → (c.GetABPPolicy d.id log).1 = .ok r →
        (resourceABPPolicyRead sdk d c log).1.1.id = r.ID)) ∧
    ((∀ e, (c.GetABPSite d.id log).1 = .error e →
        (resourceABPSiteRead sdk d c log).1.1.id = "" ∧
        ∃ msg, (resourceABPSiteRead sdk d c log).1.2 = some msg) ∧
      (∀ r, (stringsSplit d.id '-').length = 5 → (c.GetABPSite d.id log).1 = .ok r →
        (resourceABPSiteRead sdk d c log).1.1.id = r.ID)) ∧
    ((∀ r, (c.GetABPAccount d.id log).1 = .ok r ↔
        d.id.length ≠ 0 ∧ ∃ resp,
          c.DoJsonRequestWithHeaders log (c.accountRequest d.id) = .ok resp ∧
          resp.StatusCode = 200 ∧ c.unmarshalAccount resp.Body = .ok r) ∧
      (∀ r, (c.GetABPDomain d.id log).1 = .ok r ↔
        d.id.length ≠ 0 ∧ ∃ resp,
          c.DoJsonRequestWithHeaders log (c.domainRequest d.id) = .ok resp ∧
          resp.StatusCode = 200 ∧ c.unmarshalDomain resp.Body = .ok r) ∧
      (∀ r, (c.GetABPPolicy d.id log).1 = .ok r ↔
        d.id.length ≠ 0 ∧ ∃ resp,
          c.DoJsonRequestWithHeaders log (c.policyRequest d.id) = .ok resp ∧
          resp.StatusCode = 200 ∧ c.unmarshalPolicy resp.Body = .ok r) ∧
      (∀ r, (c.GetABPSite d.id log).1 = .ok r ↔
        d.id.length ≠ 0 ∧ ∃ resp,
          c.DoJsonRequestWithHeaders log (c.siteRequest d.id) = .ok resp ∧
          resp.StatusCode = 200 ∧ c.unmarshalSite resp.Body = .ok r)) := by
  refine ⟨⟨?_, ?_⟩, ⟨?_, ?_⟩, ⟨?_, ?_⟩, ⟨?_, ?_⟩,
    ⟨GetABPAccount_ok_iff c d.id log, GetABPDomain_ok_iff c d.id log,
      GetABPPolicy_ok_iff c d.id log, GetABPSite_ok_iff c d.id log⟩⟩
  · intro e h
    rw [resourceABPAccountRead_eq]
    simp [h, ResourceData.SetId]
  · intro r h
    rw [resourceABPAccountRead_eq]
    simp [h, ResourceData.SetId]
  · intro e h
    unfold resourceABPDomainRead
    dsimp only
    rcases hf : c.GetABPDomain d.id log with ⟨res, log1⟩
    rw [hf] at h
    simp only at h
    subst h
    exact ⟨rfl, rfl⟩
  · intro r h
    unfold resourceABPDomainRead
    dsimp only
    rcases hf : c.GetABPDomain d.id log with ⟨res, log1⟩
    rw [hf] at h
    simp only at h
    subst h
    exact ⟨rfl, rfl⟩
  · intro e h
    unfold resourceABPPolicyRead
    dsimp only
    by_cases h5 : (stringsSplit d.id '-').length = 5
    · rcases hf : c.GetABPPolicy d.id log with ⟨res, log1⟩
      rw [hf] at h
      simp only at h
      subst h
      simp [h5, ResourceData.SetId]
    · simp [h5, ResourceData.SetId]
  · intro r h5 h
    unfold resourceABPPolicyRead
    dsimp only
    rcases hf : c.GetABPPolicy d.id log with ⟨res, log1⟩
    rw [hf] at h
    simp only at h
    subst h
    simp only [h5, ne_eq, not_true_eq_false, if_false]
    cases r.Description <;>
    · dsimp only
      split
      · split
        · rfl
        · split <;> rfl
      · rfl
  · intro e h
    unfold resourceABPSiteRead
    dsimp only
    by_cases h5 : (stringsSplit d.id '-').length = 5
    · rcases hf : c.GetABPSite d.id log with ⟨res, log1⟩
      rw [hf] at h
      simp only at h
      subst h
      simp [h5, ResourceData.SetId]
    · simp [h5, ResourceData.SetId]
  · intro r h5 h
    unfold resourceABPSiteRead
    dsimp only
    rcases hf : c.GetABPSite d.id log with ⟨res, log1⟩
    rw [hf] at h
    simp only at h
    subst h
    simp only [h5, ne_eq, not_true_eq_false, if_false]
    split
    · split <;> rfl
    · rfl

/-- C16 (witness): a failed account fetch clears the id, a successful site
fetch binds the id of the response. -/
theorem C16_read_failure_unbinds_witness :
    ((resourceABPAccountRead storingSdk { id := "7-7-7-7-7" } failingClient []).1.1.id = "" ∧
      (resourceABPAccountRead storingSdk { id := "7-7-7-7-7" } failingClient []).1.2 =
        some ("[ERROR] Could not read ABP account " ++ "7-7-7-7-7" ++ ": " ++
          "Error from ABP API when reading account ID 7-7-7-7-7")) ∧
    (resourceABPSiteRead storingSdk { id := "1-1-1-1-1" }
      (stubClient 200 siteOneSelector policyOneDirective) []).1.1.id = "9-9-9-9-9" :=
  ⟨(C16_read_failure_unbinds storingSdk { id := "7-7-7-7-7" } failingClient []).1.1
      "Error from ABP API when reading account ID 7-7-7-7-7" (by rfl),
    (C16_read_failure_unbinds storingSdk { id := "1-1-1-1-1" }
      (stubClient 200 siteOneSelector policyOneDirective) []).2.2.2.1.2 siteOneSelector
      (by decide) (by rfl)⟩

/-- C17 (counterexample): a successful Read of a remote site without selectors
leaves the declared selector in the local data; the decoded remote list is
empty. -/
theorem C17_read_keeps_selectors_when_remote_empty :
    resourceABPSiteRead storingSdk
        { id := "9-9-9-9-9", selectors := [declaredSelector "path_prefix" "/a" "100"] }
        (stubClient 200 siteNoSelectors policyOneDirective) [] =
      (({ id := "9-9-9-9-9", name := "S1", account_id := "acc-1",
          selectors := [declaredSelector "path_prefix" "/a" "100"] }, none),
        [(stubClient 200 siteNoSelectors policyOneDirective).siteRequest "9-9-9-9-9"]) ∧
    (getSelectorsList siteNoSelectors.Selectors).toList = [] := by
  constructor <;> rfl

/-- C17 (amended): after a successful fetch, `resourceABPSiteRead` writes the
selectors only when the remote list is not empty: the local selectors are then
what `d.Set` stores for the decoded remote list (the decoded list itself when
`d.Set` stores what it is given), and Read succeeds when `d.Set` does. When the
remote list is empty Read succeeds and leaves the local selectors as they
were. -/
theorem C17_read_sets_selectors_only_when_nonempty (sdk : Sdk) (d : ResourceData) (c : Client)
    (log : List Request) (r : ABPSiteResponse)
    (h5 : (stringsSplit d.id '-').length = 5)
    (hf : (c.GetABPSite d.id log).1 = .ok r) :
    (r.Selectors.len = 0 →
      (resourceABPSiteRead sdk d c log).1 = (siteReadScalars d r, none) ∧
      (resourceABPSiteRead sdk d c log).1.1.selectors = d.selectors) ∧
    (0 < r.Selectors.len →
      (resourceABPSiteRead sdk d c log).1.1 =
        { siteReadScalars d r with
          selectors := (sdk.SetSelectors (siteReadScalars d r)
            (getSelectorsList r.Selectors)).1 } ∧
      ((resourceABPSiteRead sdk d c log).1.2 = none ↔
        (sdk.SetSelectors (siteReadScalars d r) (getSelectorsList r.Selectors)).2 = none)) ∧
    (0 < r.Selectors.len →
      sdk.SetSelectors (siteReadScalars d r) (getSelectorsList r.Selectors) =
        ((getSelectorsList r.Selectors).toList, none) →
      (resourceABPSiteRead sdk d c log).1.1.selectors = (getSelectorsList r.Selectors).toList ∧
      (resourceABPSiteRead sdk d c log).1.2 = none) := by
  unfold resourceABPSiteRead siteReadScalars ResourceData.SetId
  dsimp only
  rcases hc : c.GetABPSite d.id log with ⟨res, log1⟩
  rw [hc] at hf
  simp only at hf
  subst hf
  simp only [h5, ne_eq, not_true_eq_false, if_false]
  refine ⟨?_, ?_, ?_⟩
  · intro h0
    have hn : ¬ r.Selectors.len > 0 := by omega
    simp [hn]
  · intro hpos
    simp only [hpos, if_true]
    split <;> simp_all
  · intro hpos hs
    simp [hpos, hs]

/-- C17 (witness): Read of a remote site with one selector, and of one with
none. -/
theorem C17_read_sets_selectors_only_when_nonempty_witness :
    (resourceABPSiteRead storingSdk { id := "1-1-1-1-1" }
        (stubClient 200 siteOneSelector policyOneDirective) []).1.1.selectors =
      (getSelectorsList siteOneSelector.Selectors).toList ∧
    (resourceABPSiteRead storingSdk
        { id := "1-1-1-1-1", selectors := [declaredSelector "path_prefix" "/a" "100"] }
        (stubClient 200 siteNoSelectors policyOneDirective) []).1.1.selectors =
      [declaredSelector "path_prefix" "/a" "100"] :=
  ⟨((C17_read_sets_selectors_only_when_nonempty storingSdk { id := "1-1-1-1-1" }
      (stubClient 200 siteOneSelector policyOneDirective) [] siteOneSelector (by decide)
      (by rfl)).2.2 (by decide) (by rfl)).1,
    ((C17_read_sets_selectors_only_when_nonempty storingSdk
      { id := "1-1-1-1-1", selectors := [declaredSelector "path_prefix" "/a" "100"] }
      (stubClient 200 siteNoSelectors policyOneDirective) [] siteNoSelectors (by decide)
      (by rfl)).1 (by decide)).2⟩

/-- Fetching a domain issues nothing (empty id) or exactly the fetch request. -/
theorem GetABPDomain_log (c : Client) (domainID : String) (log : List Request) :
    (c.GetABPDomain domainID log).2 = log ∨
    (c.GetABPDomain domainID log).2 = log ++ [c.domainRequest domainID] := by
  unfold Client.GetABPDomain Client.send Client.domainRequest
  by_cases h : domainID.length = 0
  · left
    simp only [h, if_true]
  · right
    simp only [h, if_false]
    split
    · rfl
    · split
      · rfl
      · split <;> rfl

/-- The requests of `resourceABPDomainRead` are those of the fetch. -/
theorem resourceABPDomainRead_log (sdk : Sdk) (d : ResourceData) (c : Client)
    (log : List Request) :
    (resourceABPDomainRead sdk d c log).2 = (c.GetABPDomain d.id log).2 := by
  unfold resourceABPDomainRead
  dsimp only
  rcases c.GetABPDomain d.id log with ⟨res, log1⟩
  cases res <;> rfl

/-- C18 (evaluation of the code): the body `resourceABPDomainUpdate` hands to
`updateABPDomain` is the zero value of `ABPUpdateDomain` for every local
configuration: for the declared domain with `header`, `lax`, ... in its
mutable fields the body carries empty strings and nil lists. The first request
of the update is the PUT of that zero value. -/
theorem C18_domain_update_sends_zero_body :
    (∀ d : ResourceData, resourceABPDomainUpdateBody d = {}) ∧
    (declaredDomain.challenge_ip_lookup_mode = "header" ∧
      (resourceABPDomainUpdateBody declaredDomain).ChallengeIPLookupMode = "" ∧
      declaredDomain.cookie_mode = "lax" ∧
      (resourceABPDomainUpdateBody declaredDomain).CookieMode = "" ∧
      declaredDomain.no_js_injection_paths = ["/static"] ∧
      (resourceABPDomainUpdateBody declaredDomain).NoJSInjectionPaths = none) ∧
    (∀ (sdk : Sdk) (d : ResourceData) (c : Client) (log : List Request) (js : String),
      c.marshalUpdateDomain {} = .ok js →
      ∃ rest, (resourceABPDomainUpdate sdk d c log).2 =
        log ++ c.updateDomainRequest d.id js :: rest) := by
  refine ⟨fun _ => rfl, ⟨rfl, rfl, rfl, rfl, rfl, rfl⟩, ?_⟩
  intro sdk d c log js hmar
  have hupd : (c.updateABPDomain d.id {} log).2 = log ++ [c.updateDomainRequest d.id js] := by
    unfold Client.updateABPDomain Client.send Client.updateDomainRequest
    simp only [hmar]
    split
    · rfl
    · split
      · rfl
      · split <;> rfl
  unfold resourceABPDomainUpdate resourceABPDomainUpdateBody
  dsimp only
  rcases hu : c.updateABPDomain d.id {} log with ⟨res, log1⟩
  rw [hu] at hupd
  simp only at hupd
  subst hupd
  cases res with
  | error e => exact ⟨[], by simp⟩
  | ok v =>
    simp only [resourceABPDomainRead_log]
    rcases GetABPDomain_log c d.id (log ++ [c.updateDomainRequest d.id js]) with h | h
    · exact ⟨[], by rw [h]⟩
    · exact ⟨[c.domainRequest d.id], by rw [h]; simp⟩

/-- C18 (witness): the update of the declared domain starts with the PUT of
the marshalled zero value. -/
theorem C18_domain_update_sends_zero_body_witness :
    ∃ rest, (resourceABPDomainUpdate storingSdk declaredDomain
        (stubClient 200 siteNoSelectors policyOneDirective) []).2 =
      [] ++ (stubClient 200 siteNoSelectors policyOneDirective).updateDomainRequest
        declaredDomain.id "domain json" :: rest :=
  C18_domain_update_sends_zero_body.2.2 storingSdk declaredDomain
    (stubClient 200 siteNoSelectors policyOneDirective) [] "domain json" (by rfl)

/-- The decoding loop panics at a directive without condition id. -/
theorem getDirectivesListEntries_panics (l : List ABPPolicyDirective)
    (h : ∃ dir ∈ l, dir.ConditionID = none) :
    getDirectivesListEntries l =
      .error "runtime error: invalid memory address or nil pointer dereference" := by
  induction l with
  | nil => simp at h
  | cons a rest ih =>
    unfold getDirectivesListEntries
    cases ha : a.ConditionID with
    | none => rfl
    | some cid =>
      have hr : ∃ dir ∈ rest, dir.ConditionID = none := by
        obtain ⟨dir, hmem, hnone⟩ := h
        rcases List.mem_cons.mp hmem with rfl | hm
        · rw [ha] at hnone
          cases hnone
        · exact ⟨dir, hm, hnone⟩
      simp only [ih hr]

/-- C19 (evaluation of the code): for every directive list in which some
directive has no condition id, `getDirectivesList` panics on the nil pointer:
it returns no list and no best-effort entry. -/
theorem C19_missing_condition_id_panics (directives : Slice ABPPolicyDirective)
    (h : ∃ dir ∈ directives.toList, dir.ConditionID = none) :
    getDirectivesList directives =
      .error "runtime error: invalid memory address or nil pointer dereference" := by
  unfold getDirectivesList
  have hlen : directives.len ≠ 0 := by
    obtain ⟨dir, hmem, _⟩ := h
    unfold Slice.len
    intro h0
    rw [List.length_eq_zero.mp h0] at hmem
    simp at hmem
  simp only [hlen, if_false, getDirectivesListEntries_panics directives.toList h]

/-- C19 (witness): one directive `block` without condition id. -/
theorem C19_missing_condition_id_panics_witness :
    getDirectivesList (some [{ Action := "block", ConditionID := none }]) =
      .error "runtime error: invalid memory address or nil pointer dereference" :=
  C19_missing_condition_id_panics (some [{ Action := "block", ConditionID := none }])
    ⟨{ Action := "block", ConditionID := none }, by simp [Slice.toList], rfl⟩

/-- C20: import by id (Site and Policy) returns exactly the original resource,
as a one-element list, when the fetch by id succeeds; when the fetch fails,
whatever the failure, it returns no resource and the error
`ABP site ID <id> not found, can't import`, which names the id and nothing of
the cause. -/
theorem C20_import_by_id_not_found (d : ResourceData) (c : Client) (log : List Request) :
    (∀ r, (c.GetABPSite d.id log).1 = .ok r → (importResourcesByID d c log).1 = .ok [d]) ∧
    (∀ e, (c.GetABPSite d.id log).1 = .error e →
      (importResourcesByID d c log).1 =
        .error ("ABP site ID " ++ d.id ++ " not found, can't import")) ∧
    (∀ r, (c.GetABPPolicy d.id log).1 = .ok r →
      (importABPPolicyResourcesByID d c log).1 = .ok [d]) ∧
    (∀ e, (c.GetABPPolicy d.id log).1 = .error e →
      (importABPPolicyResourcesByID d c log).1 =
        .error ("ABP site ID " ++ d.id ++ " not found, can't import")) := by
  refine ⟨?_, ?_, ?_, ?_⟩
  · intro r h
    unfold importResourcesByID
    rcases hc : c.GetABPSite d.id log with ⟨res, log1⟩
    rw [hc] at h
    simp only at h
    subst h
    rfl
  · intro e h
    unfold importResourcesByID
    rcases hc : c.GetABPSite d.id log with ⟨res, log1⟩
    rw [hc] at h
    simp only at h
    subst h
    rfl
  · intro r h
    unfold importABPPolicyResourcesByID
    rcases hc : c.GetABPPolicy d.id log with ⟨res, log1⟩
    rw [hc] at h
    simp only at h
    subst h
    rfl
  · intro e h
    unfold importABPPolicyResourcesByID
    rcases hc : c.GetABPPolicy d.id log with ⟨res, log1⟩
    rw [hc] at h
    simp only at h
    subst h
    rfl

/-- C20 (witness): a site fetch that succeeds, one answered 500, and a policy
fetch whose transport fails. -/
theorem C20_import_by_id_not_found_witness :
    (importResourcesByID { id := "9-9-9-9-9" }
      (stubClient 200 siteNoSelectors policyOneDirective) []).1 = .ok [{ id := "9-9-9-9-9" }] ∧
    (importResourcesByID { id := "9-9-9-9-9" }
      (stubClient 500 siteNoSelectors policyOneDirective) []).1 =
      .error ("ABP site ID " ++ "9-9-9-9-9" ++ " not found, can't import") ∧
    (importABPPolicyResourcesByID { id := "6-6-6-6-6" } failingClient []).1 =
      .error ("ABP site ID " ++ "6-6-6-6-6" ++ " not found, can't import") :=
  ⟨(C20_import_by_id_not_found { id := "9-9-9-9-9" }
      (stubClient 200 siteNoSelectors policyOneDirective) []).1 siteNoSelectors (by rfl),
    (C20_import_by_id_not_found { id := "9-9-9-9-9" }
      (stubClient 500 siteNoSelectors policyOneDirective) []).2.1
      ("Error status code " ++ toString (500 : Int) ++
        " from ABP API when reading site ID " ++ "9-9-9-9-9" ++ ": " ++ "raw body") (by rfl),
    (C20_import_by_id_not_found { id := "6-6-6-6-6" } failingClient []).2.2.2
      "error from ABP API when reading policy ID 6-6-6-6-6" (by rfl)⟩

/-! ### Encoding of declared selectors -/

/-- The wire selector `fillABPSiteData` builds from a map that has the four
keys it reads. -/
theorem fillABPSiteSelector_ok (m : SelectorMap) (p rate v kind : String)
    (hp : m.policy_id = some p) (hr : m.analysis_rate_limiting = some rate)
    (hv : m.criteria_value = some v) (hk : m.criteria_type = some kind) :
    fillABPSiteSelector (some m) = .ok
      { PolicyID := if p.length > 0 then some p else none
        Criteria :=
          if kind = ABPSelectorCriteriaPostback then { Postback := some v }
          else if kind = ABPSelectorCriteriaPathPrefix then { PathPrefix := some v }
          else if kind = ABPSelectorCriteriaPathRegex then { PathRegex := some v }
          else {}
        AnalysisSettings := { RateLimiting := rate }
        DerivedID := none } := by
  unfold fillABPSiteSelector
  simp only [Option.getD_some, hp, hr, hv, hk]

/-- A map as the schema supplies it is encoded without a panic, and the wire
selector has no derived id. -/
theorem fillABPSiteSelector_of_schemaSupplied (s : Option SelectorMap)
    (h : schemaSuppliedSelector s = true) :
    ∃ w, fillABPSiteSelector s = .ok w ∧ w.DerivedID = none := by
  cases s with
  | none => simp [schemaSuppliedSelector] at h
  | some m =>
    simp only [schemaSuppliedSelector, Bool.and_eq_true, Option.isSome_iff_exists] at h
    obtain ⟨⟨⟨⟨⟨p, hp⟩, ⟨k, hk⟩⟩, ⟨v, hv⟩⟩, ⟨r, hr⟩⟩, _⟩ := h
    exact ⟨_, fillABPSiteSelector_ok m p r v k hp hr hv hk, rfl⟩

/-- The selector loop on maps as the schema supplies them: no panic, one wire
selector per map, in order, appended to the accumulator. -/
theorem fillABPSiteSelectors_of_schemaSupplied (D : List (Option SelectorMap))
    (acc : Slice ABPSiteSelector) (h : ∀ s ∈ D, schemaSuppliedSelector s = true) :
    ∃ ws, List.Forall₂ (fun s w => fillABPSiteSelector s = .ok w) D ws ∧
      fillABPSiteSelectors D acc = .ok (if D = [] then acc else some (acc.toList ++ ws)) := by
  induction D generalizing acc with
  | nil => exact ⟨[], List.Forall₂.nil, rfl⟩
  | cons s rest ih =>
    obtain ⟨w, hw, _⟩ := fillABPSiteSelector_of_schemaSupplied s (h s (List.mem_cons_self _ _))
    obtain ⟨ws, hws, hfill⟩ := ih (acc.push w) (fun t ht => h t (List.mem_cons_of_mem _ ht))
    refine ⟨w :: ws, List.Forall₂.cons hw hws, ?_⟩
    unfold fillABPSiteSelectors
    simp only [hw, hfill]
    by_cases hrest : rest = []
    · subst hrest
      cases hws
      simp [Slice.push]
    · simp [hrest, Slice.push, Slice.toList]

/-- Related lists are related position by position. -/
theorem forall₂_getElem? {α β : Type} {R : α → β → Prop} {l : List α} {l2 : List β}
    (h : List.Forall₂ R l l2) (i : Nat) (a : α) (ha : l[i]? = some a) :
    ∃ b, l2[i]? = some b ∧ R a b := by
  induction l generalizing l2 i with
  | nil => simp at ha
  | cons x xs ih =>
    cases h with
    | cons hxy hrest =>
      rename_i y ys
      match i with
      | 0 =>
        have hxa : x = a := by simpa using ha
        exact ⟨y, by simp, hxa ▸ hxy⟩
      | k + 1 =>
        have hk : xs[k]? = some a := by simpa using ha
        obtain ⟨b, hb, hab⟩ := ih hrest k hk
        exact ⟨b, by simpa using hb, hab⟩

/-- What `fillABPSiteData` leaves in an `ABPUpdateSite` for selectors as the
schema supplies them. -/
theorem fillABPSiteData_update_of_schemaSupplied (d : ResourceData)
    (h : ∀ s ∈ d.selectors, schemaSuppliedSelector s = true) :
    ∃ ws, List.Forall₂ (fun s w => fillABPSiteSelector s = .ok w) d.selectors ws ∧
      fillABPSiteData d (.update {}) =
        .ok (.update { Name := d.name,
                       Selectors := if d.selectors = [] then none else some ws }, none) := by
  obtain ⟨ws, hws, hfill⟩ := fillABPSiteSelectors_of_schemaSupplied d.selectors none h
  refine ⟨ws, hws, ?_⟩
  unfold fillABPSiteData
  simp only [hfill]
  by_cases hd : d.selectors = []
  · simp [hd]
  · simp [hd, Slice.toList]

/-- C21: for selectors as the schema supplies them, the wire selector
`fillABPSiteData` builds at each position has its rate limiting equal to the
declared `analysis_rate_limiting`, and for a criteria type `postback`,
`path_prefix` or `path_regex` it has exactly the field of that kind set, to the
declared criteria value, the two other fields being absent. -/
theorem C21_encode_sets_exactly_one_field (d : ResourceData) (i : Nat) (m : SelectorMap)
    (kind v rate : String)
    (hD : ∀ s ∈ d.selectors, schemaSuppliedSelector s = true)
    (hi : d.selectors[i]? = some (some m))
    (hk : m.criteria_type = some kind) (hv : m.criteria_value = some v)
    (hr : m.analysis_rate_limiting = some rate) :
    ∃ site w, fillABPSiteData d (.update {}) = .ok (.update site, none) ∧
      site.Selectors.toList[i]? = some w ∧
      w.AnalysisSettings.RateLimiting = rate ∧
      (kind = "postback" →
        w.Criteria = { Postback := some v, PathPrefix := none, PathRegex := none }) ∧
      (kind = "path_prefix" →
        w.Criteria = { Postback := none, PathPrefix := some v, PathRegex := none }) ∧
      (kind = "path_regex" →
        w.Criteria = { Postback := none, PathPrefix := none, PathRegex := some v }) ∧
      (kind = "postback" ∨ kind = "path_prefix" ∨ kind = "path_regex" →
        w.Criteria.setCount = 1) := by
  obtain ⟨ws, hws, hfill⟩ := fillABPSiteData_update_of_schemaSupplied d hD
  obtain ⟨w, hw, hRw⟩ := forall₂_getElem? hws i (some m) hi
  have hsup := hD (some m) (List.getElem?_mem hi)
  simp only [schemaSuppliedSelector, Bool.and_eq_true, Option.isSome_iff_exists] at hsup
  obtain ⟨⟨⟨⟨⟨p, hp⟩, _⟩, _⟩, _⟩, _⟩ := hsup
  rw [fillABPSiteSelector_ok m p rate v kind hp hr hv hk] at hRw
  simp only [Except.ok.injEq] at hRw
  have hne : d.selectors ≠ [] := by
    intro h0
    rw [h0] at hi
    simp at hi
  refine ⟨_, w, hfill, ?_, ?_, ?_, ?_, ?_, ?_⟩
  · simp [hne, Slice.toList, hw]
  · rw [← hRw]
  · intro hkind
    rw [← hRw]
    simp [hkind, ABPSelectorCriteriaPostback]
  · intro hkind
    rw [← hRw]
    simp [hkind, ABPSelectorCriteriaPostback, ABPSelectorCriteriaPathPrefix]
  · intro hkind
    rw [← hRw]
    simp [hkind, ABPSelectorCriteriaPostback, ABPSelectorCriteriaPathPrefix,
      ABPSelectorCriteriaPathRegex]
  · intro hkind
    rw [← hRw]
    rcases hkind with hkind | hkind | hkind <;>
      simp [hkind, ABPSelectorCriteriaPostback, ABPSelectorCriteriaPathPrefix,
        ABPSelectorCriteriaPathRegex, Criteria.setCount]

/-- C21 (witness): the first selector of `declaredThreeKinds`, of kind
`postback`. -/
theorem C21_encode_sets_exactly_one_field_witness :
    ∃ site w, fillABPSiteData declaredThreeKinds (.update {}) = .ok (.update site, none) ∧
      site.Selectors.toList[0]? = some w ∧
      w.AnalysisSettings.RateLimiting = "10" ∧
      ("postback" = "postback" →
        w.Criteria = { Postback := some "pb", PathPrefix := none, PathRegex := none }) ∧
      ("postback" = "path_prefix" →
        w.Criteria = { Postback := none, PathPrefix := some "pb", PathRegex := none }) ∧
      ("postback" = "path_regex" →
        w.Criteria = { Postback := none, PathPrefix := none, PathRegex := some "pb" }) ∧
      ("postback" = "postback" ∨ "postback" = "path_prefix" ∨ "postback" = "path_regex" →
        w.Criteria.setCount = 1) :=
  C21_encode_sets_exactly_one_field declaredThreeKinds 0
    { policy_id := some "", criteria_type := some "postback", criteria_value := some "pb",
      analysis_rate_limiting := some "10", derived_id := some "" }
    "postback" "pb" "10" (by decide) (by rfl) (by rfl) (by rfl) (by rfl)

/-- C22 (evaluation of the code): `getSelectorsList` keeps a position for
every selector: the decoded list has the length of the input, and a selector
with no criteria field leaves the nil map at its position instead of being
dropped. For a selector without criteria followed by a `path_prefix` selector
the result has two entries, the first one nil. -/
theorem C22_no_criteria_leaves_placeholder :
    (∀ sels : List ABPSiteSelector, (getSelectorsList (some sels)).len = sels.length) ∧
    (∀ sel : ABPSiteSelector, getSelectorsListEntry sel = none ↔ sel.Criteria.setCount = 0) ∧
    noCriteriaSelector.Criteria.setCount = 0 ∧
    getSelectorsList (some [noCriteriaSelector, prefixSelector "/a" "1"]) =
      some [none, some { criteria_type := some "path_prefix", criteria_value := some "/a",
                         analysis_rate_limiting := some "1" }] := by
  refine ⟨?_, ?_, rfl, rfl⟩
  · intro sels
    unfold getSelectorsList
    cases sels with
    | nil => rfl
    | cons a l => simp [Slice.len, Slice.toList]
  · intro sel
    rw [getSelectorsListEntry_eq]
    unfold Criteria.firstSet Criteria.setCount
    cases sel.Criteria.PathPrefix <;> cases sel.Criteria.PathRegex <;>
      cases sel.Criteria.Postback <;> simp

/-! ### Directive codec -/

/-- The decoding loop on directives that all have a condition id: one entry
per directive, in order. -/
theorem getDirectivesListEntries_ok (l : List ABPPolicyDirective)
    (h : ∀ dir ∈ l, dir.ConditionID.isSome = true) :
    getDirectivesListEntries l =
      .ok (l.map fun dir =>
        some { action := some dir.Action, condition_id := dir.ConditionID }) := by
  induction l with
  | nil => rfl
  | cons a rest ih =>
    have ha := h a (List.mem_cons_self _ _)
    obtain ⟨cid, hcid⟩ := Option.isSome_iff_exists.mp ha
    unfold getDirectivesListEntries
    simp only [hcid, ih (fun dir hd => h dir (List.mem_cons_of_mem _ hd)), List.map_cons]

/-- A directive map as the schema supplies it is encoded without a panic, to a
directive that carries its action and its condition id. -/
theorem fillABPPolicyDirective_of_schemaSupplied (s : Option DirectiveMap)
    (h : schemaSuppliedDirective s = true) :
    ∃ w, fillABPPolicyDirective s = .ok w ∧ w.ConditionID.isSome = true ∧
      s = some { action := some w.Action, condition_id := w.ConditionID } := by
  cases s with
  | none => simp [schemaSuppliedDirective] at h
  | some m =>
    obtain ⟨cid, act⟩ := m
    simp only [schemaSuppliedDirective, Bool.and_eq_true, Option.isSome_iff_exists] at h
    obtain ⟨⟨c, hc⟩, ⟨a, ha⟩⟩ := h
    subst hc ha
    exact ⟨{ Action := a, ConditionID := some c }, rfl, rfl, rfl⟩

/-- The directive loop on maps as the schema supplies them: no panic, one wire
directive per map, in order, appended to the accumulator. -/
theorem fillABPPolicyDirectives_of_schemaSupplied (D : List (Option DirectiveMap))
    (acc : Slice ABPPolicyDirective) (h : ∀ s ∈ D, schemaSuppliedDirective s = true) :
    ∃ ws, (∀ w ∈ ws, w.ConditionID.isSome = true) ∧
      D = ws.map (fun w => some { action := some w.Action, condition_id := w.ConditionID }) ∧
      fillABPPolicyDirectives D acc = .ok (if D = [] then acc else some (acc.toList ++ ws)) := by
  induction D generalizing acc with
  | nil => exact ⟨[], by simp, rfl, rfl⟩
  | cons s rest ih =>
    obtain ⟨w, hw, hsome, hs⟩ :=
      fillABPPolicyDirective_of_schemaSupplied s (h s (List.mem_cons_self _ _))
    obtain ⟨ws, hall, hmap, hfill⟩ :=
      ih (acc.push w) (fun t ht => h t (List.mem_cons_of_mem _ ht))
    refine ⟨w :: ws, ?_, ?_, ?_⟩
    · intro x hx
      rcases List.mem_cons.mp hx with rfl | hx
      · exact hsome
      · exact hall x hx
    · rw [List.map_cons, ← hmap, ← hs]
    · unfold fillABPPolicyDirectives
      simp only [hw, hfill]
      by_cases hrest : rest = []
      · subst hrest
        have hws : ws = [] := by
          cases ws with
          | nil => rfl
          | cons a l => simp at hmap
        subst hws
        simp [Slice.push]
      · simp [hrest, Slice.push, Slice.toList]

/-- C23: directive decoding preserves order. For a non-empty directive list in
which every directive has a condition id, `getDirectivesList` returns a list of
the same length whose entry at each position has the action and the condition
id of the directive at that position. For declared directives as the schema
supplies them, decoding what `fillABPPolicyData` builds gives back the declared
list. -/
theorem C23_directive_decoding_preserves_order :
    (∀ directives : Slice ABPPolicyDirective,
      directives.toList ≠ [] →
      (∀ dir ∈ directives.toList, dir.ConditionID.isSome = true) →
      ∃ ret, getDirectivesList directives = .ok (some ret) ∧
        ret.length = directives.len ∧
        ∀ (i : Nat) (dir : ABPPolicyDirective), directives.toList[i]? = some dir →
          ∃ cid, dir.ConditionID = some cid ∧
            ret[i]? = some (directiveEntry dir.Action cid)) ∧
    (∀ d : ResourceData,
      (∀ s ∈ d.directives, schemaSuppliedDirective s = true) →
      ∃ out decoded, fillABPPolicyData d {} = .ok out ∧
        getDirectivesList out.Directives = .ok decoded ∧
        decoded.toList = d.directives) := by
  constructor
  · intro directives hne hall
    have hlen : directives.len ≠ 0 := by
      unfold Slice.len
      intro h0
      exact hne (List.length_eq_zero.mp h0)
    refine ⟨directives.toList.map fun dir =>
      some (DirectiveMap.mk dir.ConditionID (some dir.Action)), ?_, ?_, ?_⟩
    · unfold getDirectivesList
      simp only [hlen, if_false, getDirectivesListEntries_ok directives.toList hall]
    · simp [Slice.len]
    · intro i dir hi
      obtain ⟨cid, hcid⟩ := Option.isSome_iff_exists.mp (hall dir (List.getElem?_mem hi))
      refine ⟨cid, hcid, ?_⟩
      rw [List.getElem?_map, hi, Option.map_some', hcid]
      rfl
  · intro d hD
    obtain ⟨ws, hall, hmap, hfill⟩ :=
      fillABPPolicyDirectives_of_schemaSupplied d.directives none hD
    have hout : ∃ out, fillABPPolicyData d {} = .ok out ∧
        out.Directives = (if d.directives = [] then none else some ws) := by
      unfold fillABPPolicyData
      by_cases hdesc : d.description.length > 0
      · simp only [hdesc, if_true]
        rw [hfill]
        exact ⟨_, rfl, by simp [Slice.toList]⟩
      · simp only [hdesc, if_false]
        rw [hfill]
        exact ⟨_, rfl, by simp [Slice.toList]⟩
    obtain ⟨out, hfd, hdirs⟩ := hout
    by_cases hd : d.directives = []
    · refine ⟨out, none, hfd, ?_, ?_⟩
      · rw [hdirs]
        simp only [hd, if_true]
        rfl
      · simp [Slice.toList, hd]
    · have hws : ws ≠ [] := by
        intro h0
        rw [h0] at hmap
        exact hd hmap
      refine ⟨out, some d.directives, hfd, ?_, rfl⟩
      rw [hdirs]
      simp only [hd, if_false]
      unfold getDirectivesList
      have hl : Slice.len (some ws) ≠ 0 := by
        unfold Slice.len Slice.toList
        intro h0
        exact hws (List.length_eq_zero.mp h0)
      simp only [hl, if_false]
      have he := getDirectivesListEntries_ok ws hall
      simp only [Slice.toList, he]
      rw [← hmap]

/-- C23 (witness): two directives with condition ids, and the declared policy
with the same two directives. -/
theorem C23_directive_decoding_preserves_order_witness :
    (∃ ret, getDirectivesList (some [{ Action := "block", ConditionID := some "c-1" },
          { Action := "captcha", ConditionID := some "c-2" }]) = .ok (some ret) ∧
        ret.length = Slice.len (some [({ Action := "block", ConditionID := some "c-1" } :
          ABPPolicyDirective), { Action := "captcha", ConditionID := some "c-2" }]) ∧
        ∀ (i : Nat) (dir : ABPPolicyDirective),
          (Slice.toList (some [({ Action := "block", ConditionID := some "c-1" } :
            ABPPolicyDirective), { Action := "captcha", ConditionID := some "c-2" }]))[i]? =
            some dir →
          ∃ cid, dir.ConditionID = some cid ∧
            ret[i]? = some (directiveEntry dir.Action cid)) ∧
    (∃ out decoded, fillABPPolicyData declaredPolicy {} = .ok out ∧
        getDirectivesList out.Directives = .ok decoded ∧
        decoded.toList = declaredPolicy.directives) :=
  ⟨C23_directive_decoding_preserves_order.1
      (some [{ Action := "block", ConditionID := some "c-1" },
        { Action := "captcha", ConditionID := some "c-2" }])
      (by simp [Slice.toList]) (by decide),
    C23_directive_decoding_preserves_order.2 declaredPolicy (by decide)⟩

/-! ### Encode, then compare -/

/-- The decoded list has the length of the wire list. -/
theorem getSelectorsList_len (selectors : Slice ABPSiteSelector) :
    (getSelectorsList selectors).len = selectors.len := by
  unfold getSelectorsList
  by_cases h : selectors.len = 0
  · simp only [h, if_true]
    rfl
  · simp only [h, if_false]
    simp [Slice.len, Slice.toList]

/-- The decoded form of an encoded map is never the map as the schema supplies
it: `fillABPSiteData` does not encode `derived_id`, so the decoded entry has no
such key. -/
theorem getSelectorsListEntry_ne_of_schemaSupplied (s : Option SelectorMap)
    (w : ABPSiteSelector) (h : schemaSuppliedSelector s = true)
    (hw : fillABPSiteSelector s = .ok w) : getSelectorsListEntry w ≠ s := by
  obtain ⟨w2, hw2, hder⟩ := fillABPSiteSelector_of_schemaSupplied s h
  rw [hw] at hw2
  simp only [Except.ok.injEq] at hw2
  subst hw2
  intro heq
  rw [getSelectorsListEntry_eq] at heq
  cases s with
  | none => simp [schemaSuppliedSelector] at h
  | some m =>
    simp only [schemaSuppliedSelector, Bool.and_eq_true] at h
    have hd := h.2
    cases hf : w.Criteria.firstSet with
    | none => simp [hf] at heq
    | some v =>
      simp only [hf, Option.map_some', Option.some.injEq] at heq
      rw [← heq] at hd
      simp [hder] at hd

/-- The wire selectors encoded from maps as the schema supplies them never
decode to those maps. -/
theorem compareSelectors_encoded_false (D : List (Option SelectorMap))
    (ws : List ABPSiteSelector) (hD : ∀ s ∈ D, schemaSuppliedSelector s = true)
    (hws : List.Forall₂ (fun s w => fillABPSiteSelector s = .ok w) D ws) :
    compareSelectorsToSchemaResource (if D = [] then none else some ws) (some D) = false := by
  cases hws with
  | nil =>
    unfold compareSelectorsToSchemaResource
    simp [getSelectorsList, Slice.len, Slice.toList]
  | cons hsw hrest =>
    rename_i s w rest wrest
    have hentry := getSelectorsListEntry_ne_of_schemaSupplied s w
      (hD s (List.mem_cons_self _ _)) hsw
    simp only [List.cons_ne_nil, if_false]
    unfold compareSelectorsToSchemaResource
    by_cases hlen : Slice.len (some (w :: wrest)) ≠ Slice.len (some (s :: rest))
    · rw [if_pos hlen]
    · rw [if_neg hlen]
      apply decide_eq_false
      intro heq
      simp only [getSelectorsList, Slice.len, Slice.toList, List.length_cons,
        Nat.add_one_ne_zero, if_false, List.map_cons, Option.some.injEq,
        List.cons.injEq] at heq
      exact hentry heq.1

/-- C24 (counterexample): the wire selectors built from the declared site `S1`
(one `path_prefix` selector, `policy_id` and `derived_id` empty) decode to an
entry without `policy_id` and `derived_id`, and do not compare as equivalent to
the declared selectors. -/
theorem C24_encode_then_compare_disagrees :
    fillABPSiteData declaredS1 (.update {}) =
      .ok (.update { Name := "S1", Selectors := some [prefixSelector "/a" "100"] }, none) ∧
    getSelectorsList (some [prefixSelector "/a" "100"]) =
      some [some { criteria_type := some "path_prefix", criteria_value := some "/a",
                   analysis_rate_limiting := some "100", policy_id := none,
                   derived_id := none }] ∧
    compareSelectorsToSchemaResource (some [prefixSelector "/a" "100"])
      (some declaredS1.selectors) = false := by
  refine ⟨rfl, rfl, ?_⟩
  decide

/-- C24 (amended): for every declared selector list as the schema supplies it
(each map with all five keys), the wire selectors `fillABPSiteData` builds do
not compare as equivalent to the declared list, nor does any remote site that
carries them compare as equivalent to the declared site; they compare as
equivalent to their own decoded form. -/
theorem C24_encode_then_compare (d : ResourceData)
    (hD : ∀ s ∈ d.selectors, schemaSuppliedSelector s = true) :
    ∃ site, fillABPSiteData d (.update {}) = .ok (.update site, none) ∧
      compareSelectorsToSchemaResource site.Selectors (some d.selectors) = false ∧
      (∀ r : ABPSiteResponse, r.Selectors = site.Selectors →
        compareSiteToSchemaResource d r = .ok false) ∧
      compareSelectorsToSchemaResource site.Selectors (getSelectorsList site.Selectors) =
        true := by
  obtain ⟨ws, hws, hfill⟩ := fillABPSiteData_update_of_schemaSupplied d hD
  have hcmp := compareSelectors_encoded_false d.selectors ws hD hws
  refine ⟨_, hfill, hcmp, ?_, ?_⟩
  · intro r hr
    simp only at hr
    have hn : none ∉ d.selectors := by
      intro hmem
      have hsup := hD none hmem
      simp [schemaSuppliedSelector] at hsup
    rw [compareSiteToSchemaResource_eq, if_neg hn]
    congr 1
    apply decide_eq_false
    rintro ⟨_, _, hlen, hgsl⟩
    rw [hr] at hlen hgsl
    unfold compareSelectorsToSchemaResource at hcmp
    have hlen2 : ¬ (if d.selectors = [] then none else some ws : Slice ABPSiteSelector).len ≠
        Slice.len (some d.selectors) := by
      intro hne
      exact hne hlen.symm
    rw [if_neg hlen2, hgsl] at hcmp
    simp at hcmp
  · unfold compareSelectorsToSchemaResource
    simp [getSelectorsList_len]

/-- C24 (witness): the declared site `declaredThreeKinds`. -/
theorem C24_encode_then_compare_witness :
    ∃ site, fillABPSiteData declaredThreeKinds (.update {}) = .ok (.update site, none) ∧
      compareSelectorsToSchemaResource site.Selectors (some declaredThreeKinds.selectors) =
        false ∧
      (∀ r : ABPSiteResponse, r.Selectors = site.Selectors →
        compareSiteToSchemaResource declaredThreeKinds r = .ok false) ∧
      compareSelectorsToSchemaResource site.Selectors (getSelectorsList site.Selectors) =
        true :=
  C24_encode_then_compare declaredThreeKinds (by decide)

/-- C25: for a bound id that does not split on `-` into exactly five segments,
`resourceABPSiteRead` and `resourceABPPolicyRead` clear the id, return an error
and issue no request. So when the importer is given a name that matches no
listed entity, it hands back the original resource with the name still as its
id, and the Read of that resource fails without a request. -/
theorem C25_read_rejects_unresolved_id (d : ResourceData)
    (h : (stringsSplit d.id '-').length ≠ 5) :
    (∀ (sdk : Sdk) (c : Client) (log : List Request),
      resourceABPSiteRead sdk d c log =
        ((d.SetId "", some ("ABP read site, ID was not resolved on import, " ++
          "can't fetch site (" ++ d.id ++ ")")), log)) ∧
    (∀ (sdk : Sdk) (c : Client) (log : List Request),
      resourceABPPolicyRead sdk d c log =
        ((d.SetId "", .ok (some ("ABP read policy, ID was not resolved on import, " ++
          "can't fetch site (" ++ d.id ++ ")"))), log)) ∧
    (∀ (sdk : Sdk) (c : Client) (log : List Request) (sites : List ABPSiteResponse),
      (c.GetABPSitesForAccountWithoutID log).1 = .ok sites →
      (sites.filter fun s => decide (d.id = s.Name)) = [] →
      ∃ log1, resourceABPSiteImporterState d c log = (.ok [d], log1) ∧
        (resourceABPSiteRead sdk d c log1).1.1.id = "" ∧
        (resourceABPSiteRead sdk d c log1).1.2.isSome = true ∧
        (resourceABPSiteRead sdk d c log1).2 = log1) ∧
    (∀ (sdk : Sdk) (c : Client) (log : List Request) (policies : List ABPPolicyResponse),
      (c.GetABPPoliciesForAccountWithoutID log).1 = .ok policies →
      (policies.filter fun s => decide (d.id = s.Name)) = [] →
      ∃ log1, resourceABPPolicyImporterState d c log = (.ok [d], log1) ∧
        (resourceABPPolicyRead sdk d c log1).1.1.id = "" ∧
        (∃ msg, (resourceABPPolicyRead sdk d c log1).1.2 = .ok (some msg)) ∧
        (resourceABPPolicyRead sdk d c log1).2 = log1) := by
  have hsite : ∀ (sdk : Sdk) (c : Client) (log : List Request),
      resourceABPSiteRead sdk d c log =
        ((d.SetId "", some ("ABP read site, ID was not resolved on import, " ++
          "can't fetch site (" ++ d.id ++ ")")), log) := by
    intro sdk c log
    unfold resourceABPSiteRead
    dsimp only
    rw [if_pos h]
    simp [String.append_assoc]
  have hpolicy : ∀ (sdk : Sdk) (c : Client) (log : List Request),
      resourceABPPolicyRead sdk d c log =
        ((d.SetId "", .ok (some ("ABP read policy, ID was not resolved on import, " ++
          "can't fetch site (" ++ d.id ++ ")"))), log) := by
    intro sdk c log
    unfold resourceABPPolicyRead
    dsimp only
    rw [if_pos h]
    simp [String.append_assoc]
  refine ⟨hsite, hpolicy, ?_, ?_⟩
  · intro sdk c log sites hs hm
    refine ⟨(c.GetABPSitesForAccountWithoutID log).2, ?_, ?_, ?_, ?_⟩
    · unfold resourceABPSiteImporterState
      dsimp only
      rw [if_neg h]
      unfold importResourcesByName
      rcases hc : c.GetABPSitesForAccountWithoutID log with ⟨r, log1⟩
      rw [hc] at hs
      simp only at hs
      subst hs
      simp only [importResourcesByNameLoop_fresh, hm]
    · rw [hsite]
      rfl
    · rw [hsite]
      rfl
    · rw [hsite]
  · intro sdk c log policies hs hm
    refine ⟨(c.GetABPPoliciesForAccountWithoutID log).2, ?_, ?_, ?_, ?_⟩
    · unfold resourceABPPolicyImporterState
      dsimp only
      rw [if_neg h]
      unfold importABPPolicyResourcesByName
      rcases hc : c.GetABPPoliciesForAccountWithoutID log with ⟨r, log1⟩
      rw [hc] at hs
      simp only at hs
      subst hs
      simp only [importABPPolicyResourcesByNameLoop_fresh, hm]
    · rw [hpolicy]
      rfl
    · rw [hpolicy]
      exact ⟨_, rfl⟩
    · rw [hpolicy]

/-- C25 (witness): the empty id has one segment and is rejected by the Read of
a site without a request; the name `z`, which matches no listed site, comes
back from the importer and is rejected by the Read. -/
theorem C25_read_rejects_unresolved_id_witness :
    ((stringsSplit "" '-').length = 1 ∧
      resourceABPSiteRead storingSdk { id := "" } failingClient [] =
        ((ResourceData.SetId { id := "" } "",
          some ("ABP read site, ID was not resolved on import, " ++
            "can't fetch site (" ++ "" ++ ")")), [])) ∧
    (∃ log1, resourceABPSiteImporterState { id := "z" }
          (listingClient sitesXYX policiesXYX) [] = (.ok [{ id := "z" }], log1) ∧
        (resourceABPSiteRead storingSdk { id := "z" }
          (listingClient sitesXYX policiesXYX) log1).1.1.id = "" ∧
        (resourceABPSiteRead storingSdk { id := "z" }
          (listingClient sitesXYX policiesXYX) log1).1.2.isSome = true ∧
        (resourceABPSiteRead storingSdk { id := "z" }
          (listingClient sitesXYX policiesXYX) log1).2 = log1) :=
  ⟨⟨by decide,
      (C25_read_rejects_unresolved_id { id := "" } (by decide)).1 storingSdk failingClient []⟩,
    (C25_read_rejects_unresolved_id { id := "z" } (by decide)).2.2.1 storingSdk
      (listingClient sitesXYX policiesXYX) [] sitesXYX (by rfl) (by decide)⟩

end Incapsula
